import Mathlib

/-!
Shallow embedding of the analysis-and-risk pipeline of the `ma` repository
(`analyzer.py` and `risk_manager.py`), together with proofs that settle the
specification claims.  Python floats are modelled as rationals; Python's
`round(x, n)` (and `numpy.round`) use round-half-to-even, modelled by
`pyRoundInt`/`pyRound`; Python's `int(x)` truncates toward zero, modelled by
`pyInt`.  Fallible code (exceptions that the source catches) is modelled with
`Option`/`Except`; dictionaries with optional keys are modelled by structures
with `Option` fields, and `dict.get` with a default becomes `Option.getD`.
-/

namespace MA

/-- Round-half-to-even of a rational to an integer (Python / numpy `round`). -/
def pyRoundInt (x : ℚ) : ℤ :=
  if x - ⌊x⌋ < 1/2 then ⌊x⌋
  else if 1/2 < x - ⌊x⌋ then ⌊x⌋ + 1
  else if ⌊x⌋ % 2 = 0 then ⌊x⌋ else ⌊x⌋ + 1

/-- Python `round(x, n)`: round-half-to-even at `n` decimal places. -/
def pyRound (n : ℕ) (x : ℚ) : ℚ :=
  (pyRoundInt (x * 10 ^ n) : ℚ) / 10 ^ n

/-- Python `int(x)`: truncation toward zero. -/
def pyInt (x : ℚ) : ℤ :=
  if 0 ≤ x then ⌊x⌋ else ⌈x⌉

/-- Python substring test `needle in hay` for strings. -/
def strContains (hay needle : String) : Bool :=
  hay.toList.tails.any (fun t => needle.toList.isPrefixOf t)

/-- Python `max` of a nonempty list (0 on the empty list, which in the source
raises `ValueError`; callers model that case separately). -/
def pyMax : List ℚ → ℚ
  | [] => 0
  | x :: xs => xs.foldl max x

/-- Python `min` of a nonempty list (0 on the empty list, which in the source
raises `ValueError`; callers model that case separately). -/
def pyMin : List ℚ → ℚ
  | [] => 0
  | x :: xs => xs.foldl min x

/-- Arithmetic mean (`numpy.mean`, `pandas.mean`) of a list; 0 on `[]`
(callers guard emptiness as the source does). -/
def listMean (l : List ℚ) : ℚ := l.sum / l.length

/-- Element `l.iloc[-k]` (k-th from the end, k ≥ 1); total with default 0. -/
def iNeg (l : List ℚ) (k : ℕ) : ℚ := ((l.reverse).get? (k - 1)).getD 0

/-- Last element of a series (`iloc[-1]`); total with default 0. -/
def iLast (l : List ℚ) : ℚ := iNeg l 1

/-- Element `l.iloc[k]` (positional from the start); total with default 0. -/
def iPos (l : List ℚ) (k : ℕ) : ℚ := (l.get? k).getD 0

/-- The last `n` elements of a list (`df.iloc[-n:]`). -/
def lastN (n : ℕ) (l : List α) : List α := l.drop (l.length - n)

/-- Pandas `rolling(n).mean()`: entry `i` is the mean of the window ending at
`i` when the window is complete.  Incomplete windows are NaN in pandas and are
never read by the pipeline (the callers guard on length); they are 0 here. -/
def rollingMean (n : ℕ) (l : List ℚ) : List ℚ :=
  (List.range l.length).map (fun i =>
    if n ≤ i + 1 then listMean ((l.take (i + 1)).drop (i + 1 - n)) else 0)

/-- Keys of a Python `Counter`/`dict.fromkeys` in first-occurrence order
(also `list(dict.fromkeys(...))` deduplication preserving first occurrences). -/
def firstOccur {α : Type} [DecidableEq α] : List α → List α
  | [] => []
  | x :: xs => x :: (firstOccur xs).filter (fun y => y ≠ x)

/-! ## Data model

One OHLCV sample.  The Python column `open` is `openP` here (`open` is a Lean
keyword); `vol` is the `tick_volume` column's value. -/

structure Bar where
  openP : ℚ
  high : ℚ
  low : ℚ
  close : ℚ
  vol : ℚ
  deriving DecidableEq

/-- The timestamp of the last bar of the window, as read by `_time_analysis`
from `df.index[-1]` (weekday name and hour). -/
structure TimeInfo where
  dayOfWeek : String
  hour : ℕ
  deriving DecidableEq

/-- The raw input window of `analyze_symbol`: the bar sequence plus whether a
`tick_volume` column is present and the index metadata. -/
structure InputBars where
  bars : List Bar
  hasVolume : Bool
  indexName : String
  lastTime : TimeInfo
  deriving DecidableEq

/-- The numeric indicator computations performed by the external `ta`/`talib`
libraries (not part of this repository): each field computes one indicator
series from the input data.  `_calculate_all_indicators` is embedded relative
to such a library; theorems quantify over it.  `sar` returns `none` when
`talib.SAR` raises (the source wraps it in its own `try`). -/
structure IndicatorLib where
  ema : ℕ → List ℚ → List ℚ
  macd : List ℚ → List ℚ
  macdSignal : List ℚ → List ℚ
  macdDiff : List ℚ → List ℚ
  adx : List Bar → List ℚ
  adxPos : List Bar → List ℚ
  adxNeg : List Bar → List ℚ
  rsi : List ℚ → List ℚ
  stochK : List Bar → List ℚ
  stochD : List Bar → List ℚ
  williamsR : List Bar → List ℚ
  cci : List Bar → List ℚ
  bbUpper : List ℚ → List ℚ
  bbMiddle : List ℚ → List ℚ
  bbLower : List ℚ → List ℚ
  bbWidth : List ℚ → List ℚ
  bbPct : List ℚ → List ℚ
  atr : List Bar → List ℚ
  kcUpper : List Bar → List ℚ
  kcMiddle : List Bar → List ℚ
  kcLower : List Bar → List ℚ
  obv : List ℚ → List ℚ → List ℚ
  mfi : List Bar → List ℚ
  ichiConv : List Bar → List ℚ
  ichiBase : List Bar → List ℚ
  ichiA : List Bar → List ℚ
  ichiB : List Bar → List ℚ
  ichiLag : List Bar → List ℚ
  sar : List Bar → Option (List ℚ)

/-- The bar table augmented with indicator columns (the `df` that flows through
the pipeline after `_calculate_all_indicators`).  A column that the source may
not add is an `Option`; `none` means "column absent". -/
structure Frame where
  bars : List Bar
  hasVolume : Bool
  indexName : String
  lastTime : TimeInfo
  ema9 : Option (List ℚ)
  ema20 : Option (List ℚ)
  ema50 : Option (List ℚ)
  ema100 : Option (List ℚ)
  ema200 : Option (List ℚ)
  macd : Option (List ℚ)
  macdSignal : Option (List ℚ)
  macdDiff : Option (List ℚ)
  adx : Option (List ℚ)
  adxPos : Option (List ℚ)
  adxNeg : Option (List ℚ)
  rsi : Option (List ℚ)
  stochK : Option (List ℚ)
  stochD : Option (List ℚ)
  williamsR : Option (List ℚ)
  cci : Option (List ℚ)
  bbUpper : Option (List ℚ)
  bbMiddle : Option (List ℚ)
  bbLower : Option (List ℚ)
  bbWidth : Option (List ℚ)
  bbPct : Option (List ℚ)
  atr : Option (List ℚ)
  kcUpper : Option (List ℚ)
  kcMiddle : Option (List ℚ)
  kcLower : Option (List ℚ)
  volumeSma : Option (List ℚ)
  volumeRat : Option (List ℚ)
  obv : Option (List ℚ)
  mfi : Option (List ℚ)
  ichiConv : Option (List ℚ)
  ichiBase : Option (List ℚ)
  ichiA : Option (List ℚ)
  ichiB : Option (List ℚ)
  ichiLag : Option (List ℚ)
  sar : Option (List ℚ)
  body : Option (List ℚ)
  upperShadow : Option (List ℚ)
  lowerShadow : Option (List ℚ)
  bodyRatioCol : Option (List ℚ)

/-- Column value at `iloc[-1]` (0 if the column is absent or empty; the source
only reads present columns behind `in df.columns` guards). -/
def colLast (c : Option (List ℚ)) : ℚ := iLast (c.getD [])

/-- Column value at `iloc[-k]`. -/
def colNeg (c : Option (List ℚ)) (k : ℕ) : ℚ := iNeg (c.getD []) k

def Frame.closes (f : Frame) : List ℚ := f.bars.map (·.close)

def Frame.lows (f : Frame) : List ℚ := f.bars.map (·.low)

def Frame.highs (f : Frame) : List ℚ := f.bars.map (·.high)

def Frame.len (f : Frame) : ℕ := f.bars.length

/-- Last bar of the frame (the source indexes `iloc[-1]` only on windows of
at least 100 bars; the default bar is never read there). -/
def Frame.lastBar (f : Frame) : Bar := f.bars.getLast?.getD ⟨0, 0, 0, 0, 0⟩

def Frame.lastClose (f : Frame) : ℚ := f.lastBar.close

/-- Embedding of `_calculate_all_indicators` (analyzer.py) over a well-formed
input frame (the OHLC columns present), relative to an external indicator
library: adds every indicator column per the source's control flow — volume
columns only when `tick_volume` is present, Ichimoku columns only when the
window has more than 52 bars, `sar` only when `talib.SAR` succeeds.  The
abort-on-exception behaviour of the surrounding `try` block for degenerate
inputs (missing OHLC columns) is modelled separately by
`IndEngine.calcAllIndicators`. -/
def calcAllIndicators (lib : IndicatorLib) (inp : InputBars) : Frame :=
  let bars := inp.bars
  let closes := bars.map (·.close)
  let vols := bars.map (·.vol)
  let volumeSma := rollingMean 20 vols
  { bars := bars
    hasVolume := inp.hasVolume
    indexName := inp.indexName
    lastTime := inp.lastTime
    ema9 := some (lib.ema 9 closes)
    ema20 := some (lib.ema 20 closes)
    ema50 := some (lib.ema 50 closes)
    ema100 := some (lib.ema 100 closes)
    ema200 := some (lib.ema 200 closes)
    macd := some (lib.macd closes)
    macdSignal := some (lib.macdSignal closes)
    macdDiff := some (lib.macdDiff closes)
    adx := some (lib.adx bars)
    adxPos := some (lib.adxPos bars)
    adxNeg := some (lib.adxNeg bars)
    rsi := some (lib.rsi closes)
    stochK := some (lib.stochK bars)
    stochD := some (lib.stochD bars)
    williamsR := some (lib.williamsR bars)
    cci := some (lib.cci bars)
    bbUpper := some (lib.bbUpper closes)
    bbMiddle := some (lib.bbMiddle closes)
    bbLower := some (lib.bbLower closes)
    bbWidth := some (lib.bbWidth closes)
    bbPct := some (lib.bbPct closes)
    atr := some (lib.atr bars)
    kcUpper := some (lib.kcUpper bars)
    kcMiddle := some (lib.kcMiddle bars)
    kcLower := some (lib.kcLower bars)
    volumeSma := if inp.hasVolume then some volumeSma else none
    volumeRat :=
      if inp.hasVolume then
        some (List.zipWith (fun v s => v / (if s = 0 then 1 else s)) vols volumeSma)
      else none
    obv := if inp.hasVolume then some (lib.obv closes vols) else none
    mfi := if inp.hasVolume then some (lib.mfi bars) else none
    ichiConv := if 52 < bars.length then some (lib.ichiConv bars) else none
    ichiBase := if 52 < bars.length then some (lib.ichiBase bars) else none
    ichiA := if 52 < bars.length then some (lib.ichiA bars) else none
    ichiB := if 52 < bars.length then some (lib.ichiB bars) else none
    ichiLag := if 52 < bars.length then some (lib.ichiLag bars) else none
    sar := lib.sar bars
    body := some (bars.map (fun b => |b.close - b.openP|))
    upperShadow := some (bars.map (fun b => b.high - max b.openP b.close))
    lowerShadow := some (bars.map (fun b => min b.openP b.close - b.low))
    bodyRatioCol := some (bars.map (fun b =>
      |b.close - b.openP| / (if b.high - b.low = 0 then 1/10000 else b.high - b.low))) }

/-! ## Stage result records

Each record mirrors one of the nested dictionaries produced by the analyzer;
an `Option` field corresponds to a key that some code path omits. -/

structure MacdInfo where
  value : ℚ
  signal : ℚ
  crossSignal : String
  deriving DecidableEq

structure AdxInfo where
  value : ℚ
  strength : ℤ
  deriving DecidableEq

structure TrendAnalysis where
  direction : String
  strength : ℤ
  emaAlignment : List (ℕ × ℚ)
  macd : MacdInfo
  adx : AdxInfo
  deriving DecidableEq

structure RsiInfo where
  value : ℚ
  signal : String
  divergence : String
  deriving DecidableEq

structure StochInfo where
  k : ℚ
  d : ℚ
  signal : String
  deriving DecidableEq

structure WRInfo where
  value : ℚ
  signal : String
  deriving DecidableEq

structure CciInfo where
  value : ℚ
  signal : String
  deriving DecidableEq

structure MomentumIndicators where
  rsi : Option RsiInfo
  stochastic : Option StochInfo
  williamsR : Option WRInfo
  cci : Option CciInfo
  deriving DecidableEq

structure MomentumAnalysis where
  indicators : MomentumIndicators
  overall : String
  score : ℤ
  deriving DecidableEq

structure BBInfo where
  width : ℚ
  position : String
  squeeze : Bool
  percent : ℚ
  deriving DecidableEq

structure AtrInfo where
  value : ℚ
  percent : ℚ
  level : String
  deriving DecidableEq

structure KcInfo where
  width : ℚ
  widthPercent : ℚ
  deriving DecidableEq

structure VolatilityIndicators where
  bollingerBands : Option BBInfo
  atr : Option AtrInfo
  keltnerChannel : Option KcInfo
  deriving DecidableEq

structure VolatilityAnalysis where
  indicators : VolatilityIndicators
  overall : String
  score : ℚ
  deriving DecidableEq

structure VolInfo where
  current : ℚ
  sma : ℚ
  volRat : ℚ
  signal : String
  deriving DecidableEq

structure ObvInfo where
  value : ℚ
  changePercent : ℚ
  trend : String
  deriving DecidableEq

structure MfiInfo where
  value : ℚ
  signal : String
  deriving DecidableEq

structure VolumeIndicators where
  volume : Option VolInfo
  obv : Option ObvInfo
  mfi : Option MfiInfo
  deriving DecidableEq

structure VolumeAnalysis where
  indicators : VolumeIndicators
  confirmation : String
  deriving DecidableEq

structure IchimokuAnalysis where
  tenkanSen : ℚ
  kijunSen : ℚ
  senkouSpanA : ℚ
  senkouSpanB : ℚ
  chikouSpan : ℚ
  cloudColor : String
  signals : List String
  chikouSignal : String
  deriving DecidableEq

/-- The `technical` dictionary.  The sentinel `_get_empty_analysis` only sets
`overall_trend`, hence the `Option` sub-records; `ichimoku` is `none` both for
the sentinel and for the `{}` the normal path stores when the Ichimoku columns
are absent. -/
structure TechnicalAnalysis where
  trend : Option TrendAnalysis
  momentum : Option MomentumAnalysis
  volatility : Option VolatilityAnalysis
  volume : Option VolumeAnalysis
  ichimoku : Option IchimokuAnalysis
  overallTrend : String
  deriving DecidableEq

structure CandleInfo where
  type : String
  direction : String
  bodyRatioPct : ℚ
  deriving DecidableEq

structure PriceAnalysis where
  current : ℚ
  openPrice : ℚ
  high : ℚ
  low : ℚ
  dailyChange : ℚ
  dailyChangePercent : ℚ
  dailyRange : ℚ
  dailyRangePercent : ℚ
  positionInRange : ℚ
  candle : CandleInfo
  deriving DecidableEq

structure PatternMatch where
  name : String
  type : String
  direction : String
  strength : String
  strengthScore : ℤ
  timeframe : String
  description : String
  deriving DecidableEq

/-- The `patterns` dictionary.  The sentinel only carries
`patterns`/`count`/`strength`, so the two flags are `Option`. -/
structure PatternAnalysis where
  patterns : List PatternMatch
  count : ℕ
  strength : ℚ
  hasReversal : Option Bool
  hasContinuation : Option Bool
  deriving DecidableEq

/-- The `time` dictionary: the session fields appear only when the index is a
time index, `seasonal_tendency` only on the normal path. -/
structure TimeAnalysis where
  dayOfWeek : Option String
  hour : Option ℕ
  isLondonSession : Option Bool
  isNewyorkSession : Option Bool
  isAsianSession : Option Bool
  seasonalTendency : Option String
  deriving DecidableEq

structure NearestLevel where
  level : ℚ
  distance : ℚ
  distancePercent : ℚ
  isClose : Bool
  deriving DecidableEq

structure PivotPoints where
  pivot : ℚ
  r1 : ℚ
  r2 : ℚ
  r3 : ℚ
  s1 : ℚ
  s2 : ℚ
  s3 : ℚ
  deriving DecidableEq

structure FibLevels where
  f0 : ℚ
  f236 : ℚ
  f382 : ℚ
  f500 : ℚ
  f618 : ℚ
  f786 : ℚ
  f1000 : ℚ
  f1272 : ℚ
  f1618 : ℚ
  deriving DecidableEq

structure DynamicLevels where
  ema20 : Option ℚ
  ema50 : Option ℚ
  ema100 : Option ℚ
  ema200 : Option ℚ
  bbUpper : Option ℚ
  bbMiddle : Option ℚ
  bbLower : Option ℚ
  deriving DecidableEq

structure MarketProfile where
  highVolumeNodes : List ℚ
  lowVolumeNodes : List ℚ
  pointOfControl : ℚ
  deriving DecidableEq

/-- One entry of the `level_strength` map; the source keys the map by
`str(level)`, modelled here by the level's rational value. -/
structure LevelStrengthEntry where
  touches : ℕ
  strength : ℕ
  deriving DecidableEq

structure LevelStrength where
  support : List (ℚ × LevelStrengthEntry)
  resistance : List (ℚ × LevelStrengthEntry)
  deriving DecidableEq

structure KeyLevels where
  support : List ℚ
  resistance : List ℚ
  pivotPoints : Option PivotPoints
  fibonacci : Option FibLevels
  dynamic : DynamicLevels
  marketProfile : Option MarketProfile
  nearestSupport : Option NearestLevel
  nearestResistance : Option NearestLevel
  levelStrength : LevelStrength
  deriving DecidableEq

/-- The `signals` dictionary; the sentinel and the error fallback omit
`secondary`/`entry_signal`/`exit_signal`/`timeframe`. -/
structure Signals where
  primary : String
  secondary : Option String
  entrySignal : Option String
  exitSignal : Option String
  strength : ℤ
  reasons : List String
  riskLevel : String
  timeframe : Option String
  confidence : ℤ
  deriving DecidableEq

/-- The `entry_exit` dictionary of a directional signal.  A `none` field is a
Python `None` value or an absent key (`risk_reward_ratio` is absent until set;
`position_size_percent` is absent when the computed R:R is 0). -/
structure EntryExit where
  entry : Option ℚ
  stopLoss : Option ℚ
  takeProfit1 : Option ℚ
  takeProfit2 : Option ℚ
  riskReward : Option ℚ
  positionSizePercent : Option ℚ
  deriving DecidableEq

/-- The analyzer's own `risk` dictionary; the sentinel only carries
`score` and `level`. -/
structure RiskInfo where
  score : ℚ
  level : String
  factors : Option (List String)
  recommendation : Option String
  maxPositionSizePercent : Option ℚ
  deriving DecidableEq

structure Recommendation where
  action : String
  confidence : ℤ
  message : String
  riskLevel : String
  timeframe : String
  deriving DecidableEq

/-- The full result record of `analyze_symbol`. -/
structure AnalysisResult where
  symbol : String
  timeframe : String
  timestamp : String
  currentPrice : ℚ
  technical : TechnicalAnalysis
  price : Option PriceAnalysis
  patterns : PatternAnalysis
  time : TimeAnalysis
  keyLevels : Option KeyLevels
  signals : Signals
  score : ℤ
  confidence : ℤ
  entryExit : Option EntryExit
  risk : RiskInfo
  summary : String
  recommendation : Recommendation
  deriving DecidableEq

/-! ## Interpretation layer (`_technical_analysis` and helpers) -/

/-- Lookup in the `ema_values` dict with default 0 (`ema_values.get(p, 0)`). -/
def lookupEma (l : List (ℕ × ℚ)) (k : ℕ) : ℚ :=
  ((l.find? (fun p => decide (p.1 = k))).map (·.2)).getD 0

/-- Python `all(cp > e[i] > e[i+1] for i in range(len(e)-1))`. -/
def chainDescBelow (cp : ℚ) (l : List ℚ) : Bool :=
  (l.zip l.tail).all (fun p => decide (p.1 < cp) && decide (p.2 < p.1))

/-- Python `all(cp < e[i] < e[i+1] for i in range(len(e)-1))`. -/
def chainAscAbove (cp : ℚ) (l : List ℚ) : Bool :=
  (l.zip l.tail).all (fun p => decide (cp < p.1) && decide (p.1 < p.2))

/-- Local maxima (`_find_peaks`, lookaround 3): indices whose value equals the
maximum of the symmetric 7-point window. -/
def findPeaks (data : List ℚ) : List ℕ :=
  (List.range data.length).filter (fun i =>
    decide (3 ≤ i) && decide (i + 3 < data.length) &&
    decide (iPos data i = pyMax ((data.drop (i - 3)).take 7)))

/-- Local minima (`_find_valleys`, lookaround 3). -/
def findValleys (data : List ℚ) : List ℕ :=
  (List.range data.length).filter (fun i =>
    decide (3 ≤ i) && decide (i + 3 < data.length) &&
    decide (iPos data i = pyMin ((data.drop (i - 3)).take 7)))

/-- Last and second-last entries of an index list. -/
def last2 (l : List ℕ) : ℕ × ℕ :=
  ((l.reverse.get? 0).getD 0, (l.reverse.get? 1).getD 0)

/-- Embeds `_check_rsi_divergence` (period 14). -/
def checkRsiDivergence (f : Frame) : String :=
  if f.len < 28 then "NO_DATA"
  else
    let prices := lastN 28 f.closes
    match f.rsi with
    | none => "NO_RSI_DATA"
    | some rsiCol =>
      let rsiValues := lastN 28 rsiCol
      let pricePeaks := findPeaks prices
      let rsiPeaks := findPeaks rsiValues
      let pv := findValleys prices
      let rv := findValleys rsiValues
      if 2 ≤ pricePeaks.length ∧ 2 ≤ rsiPeaks.length ∧
          iPos prices (last2 pricePeaks).2 < iPos prices (last2 pricePeaks).1 ∧
          iPos rsiValues (last2 rsiPeaks).1 < iPos rsiValues (last2 rsiPeaks).2 then
        "BEARISH_DIVERGENCE"
      else if 2 ≤ pv.length ∧ 2 ≤ rv.length ∧
          iPos prices (last2 pv).1 < iPos prices (last2 pv).2 ∧
          iPos rsiValues (last2 rv).2 < iPos rsiValues (last2 rv).1 then
        "BULLISH_DIVERGENCE"
      else "NO_DIVERGENCE"

/-- Embeds `_analyze_trend`. -/
def analyzeTrend (f : Frame) : TrendAnalysis :=
  let cp := f.lastClose
  let emaValues : List (ℕ × ℚ) :=
    ([(9, f.ema9), (20, f.ema20), (50, f.ema50), (100, f.ema100), (200, f.ema200)]
      : List (ℕ × Option (List ℚ))).filterMap
      (fun pc => pc.2.map (fun col => (pc.1, iLast col)))
  let emaPrices := emaValues.map (·.2)
  let dirStrength : String × ℤ :=
    if 3 ≤ emaValues.length then
      if chainDescBelow cp emaPrices then ("STRONG_BULLISH", 95)
      else if chainAscAbove cp emaPrices then ("STRONG_BEARISH", 95)
      else if lookupEma emaValues 50 < lookupEma emaValues 20 ∧ lookupEma emaValues 20 < cp then
        ("BULLISH", 70)
      else if cp < lookupEma emaValues 20 ∧ lookupEma emaValues 20 < lookupEma emaValues 50 then
        ("BEARISH", 70)
      else ("NEUTRAL", 0)
    else ("NEUTRAL", 0)
  let macdCross : String :=
    match f.macd, f.macdSignal with
    | some m, some ms =>
      let mc := iLast m
      let msc := iLast ms
      let mp := if 1 < f.len then iNeg m 2 else mc
      let msp := if 1 < f.len then iNeg ms 2 else msc
      if msc < mc ∧ mp ≤ msp then "BULLISH_CROSS"
      else if mc < msc ∧ msp ≤ mp then "BEARISH_CROSS"
      else if msc < mc then "BULLISH"
      else if mc < msc then "BEARISH"
      else "NEUTRAL"
    | _, _ => "NEUTRAL"
  let adxStrength : ℚ :=
    match f.adx with
    | some a => if 25 < iLast a then min 100 ((iLast a - 25) * 2) else 0
    | none => 0
  { direction := dirStrength.1
    strength := dirStrength.2
    emaAlignment := emaValues
    macd :=
      { value := (f.macd.map iLast).getD 0
        signal := (f.macdSignal.map iLast).getD 0
        crossSignal := macdCross }
    adx :=
      { value := (f.adx.map iLast).getD 0
        strength := pyInt adxStrength } }

/-- Signed vote of one momentum signal (`'BULL' in s` / `'BEAR' in s`). -/
def bullTally (s : String) : ℤ :=
  if strContains s "BULL" then 1 else if strContains s "BEAR" then -1 else 0

/-- Embeds `_analyze_momentum`. -/
def analyzeMomentum (f : Frame) : MomentumAnalysis :=
  let rsiInfo : Option RsiInfo := f.rsi.map (fun col =>
    let v := iLast col
    { value := v
      signal :=
        if 70 < v then "OVERBOUGHT"
        else if v < 30 then "OVERSOLD"
        else if 50 < v then "BULLISH"
        else if v < 50 then "BEARISH"
        else "NEUTRAL"
      divergence := checkRsiDivergence f })
  let stochInfo : Option StochInfo :=
    match f.stochK, f.stochD with
    | some sk, some sd =>
      let k := iLast sk
      let d := iLast sd
      some
        { k := k, d := d
          signal :=
            if 80 < k ∧ 80 < d then "OVERBOUGHT"
            else if k < 20 ∧ d < 20 then "OVERSOLD"
            else if d < k ∧ iNeg sk 2 ≤ iNeg sd 2 then "BULLISH_CROSS"
            else if k < d ∧ iNeg sd 2 ≤ iNeg sk 2 then "BEARISH_CROSS"
            else "NEUTRAL" }
    | _, _ => none
  let wrInfo : Option WRInfo := f.williamsR.map (fun col =>
    let v := iLast col
    { value := v
      signal := if -20 < v then "OVERBOUGHT" else if v < -80 then "OVERSOLD" else "NEUTRAL" })
  let cciInfo : Option CciInfo := f.cci.map (fun col =>
    let v := iLast col
    { value := v
      signal := if 100 < v then "OVERBOUGHT" else if v < -100 then "OVERSOLD" else "NEUTRAL" })
  let sigs : List String :=
    ([rsiInfo.map (·.signal), stochInfo.map (·.signal),
      wrInfo.map (·.signal), cciInfo.map (·.signal)]).filterMap id
  let bull : ℤ := (sigs.map bullTally).sum
  let total : ℕ := sigs.length
  let momentumScore : ℚ :=
    if sigs ≠ [] ∧ 0 < total then
      max 0 (min 100 (50 + (bull : ℚ) / (total : ℚ) * 50))
    else 50
  let overall : String :=
    if sigs ≠ [] ∧ 0 < total then
      if 60 < momentumScore then "BULLISH"
      else if momentumScore < 40 then "BEARISH"
      else "NEUTRAL"
    else "NEUTRAL"
  { indicators := { rsi := rsiInfo, stochastic := stochInfo, williamsR := wrInfo, cci := cciInfo }
    overall := overall
    score := pyInt momentumScore }

/-- Embeds `_analyze_volatility`. -/
def analyzeVolatility (f : Frame) : VolatilityAnalysis :=
  let cp := f.lastClose
  let bbInfo : Option BBInfo := f.bbWidth.map (fun wcol =>
    let width := iLast wcol
    let position : String :=
      match f.bbUpper, f.bbLower with
      | some up, some lo =>
        if iLast up < cp then "ABOVE_UPPER"
        else if cp < iLast lo then "BELOW_LOWER"
        else if colLast f.bbMiddle < cp then "UPPER_HALF"
        else "LOWER_HALF"
      | _, _ => "MIDDLE"
    let squeeze : Bool :=
      if 20 < f.len then decide (width < iLast (rollingMean 20 wcol) * 0.7) else false
    { width := width
      position := position
      squeeze := squeeze
      percent := (f.bbPct.map iLast).getD 0 })
  let atrInfo : Option AtrInfo := f.atr.map (fun col =>
    let v := iLast col
    let pct := if 0 < cp then v / cp * 100 else 0
    { value := v
      percent := pct
      level := if 1.5 < pct then "HIGH" else if pct < 0.3 then "LOW" else "NORMAL" })
  let kcInfo : Option KcInfo :=
    match f.kcUpper, f.kcLower with
    | some up, some lo =>
      let w := iLast up - iLast lo
      some { width := w, widthPercent := if 0 < cp then w / cp * 100 else 0 }
    | _, _ => none
  let scores : List ℚ :=
    (match atrInfo with
     | some a =>
       [if 1.5 < a.percent then 8 else if 1 < a.percent then 6
        else if 0.5 < a.percent then 4 else 2]
     | none => []) ++
    (match bbInfo with
     | some b =>
       [if 0.02 < b.width then 8 else if 0.01 < b.width then 6
        else if 0.005 < b.width then 4 else 2]
     | none => [])
  let anyInd : Bool := bbInfo.isSome || atrInfo.isSome || kcInfo.isSome
  let volatilityScore : ℚ :=
    if anyInd ∧ scores ≠ [] then listMean scores else 5
  let overall : String :=
    if anyInd ∧ scores ≠ [] then
      if 7 ≤ volatilityScore then "HIGH"
      else if 4 ≤ volatilityScore then "MEDIUM"
      else "LOW"
    else "MEDIUM"
  { indicators := { bollingerBands := bbInfo, atr := atrInfo, keltnerChannel := kcInfo }
    overall := overall
    score := volatilityScore }

/-- Embeds `_analyze_volume`. -/
def analyzeVolume (f : Frame) : VolumeAnalysis :=
  let volInfo : Option VolInfo :=
    if f.hasVolume then
      let currentVolume := iLast (f.bars.map (·.vol))
      let sma := (f.volumeSma.map iLast).getD currentVolume
      let r := if 0 < sma then currentVolume / sma else 1
      some
        { current := currentVolume, sma := sma, volRat := r
          signal :=
            if 3 < r then "EXTREME_HIGH"
            else if 2 < r then "VERY_HIGH"
            else if 1.5 < r then "HIGH"
            else if r < 0.3 then "EXTREME_LOW"
            else if r < 0.5 then "VERY_LOW"
            else if r < 0.8 then "LOW"
            else "NORMAL" }
    else none
  let obvInfo : Option ObvInfo := f.obv.map (fun col =>
    let cur := iLast col
    let prev := if 20 < f.len then iNeg col 20 else cur
    let chg := if prev ≠ 0 then (cur - prev) / |prev| * 100 else 0
    { value := cur
      changePercent := chg
      trend :=
        if 20 < chg then "STRONG_BULLISH"
        else if 10 < chg then "BULLISH"
        else if chg < -20 then "STRONG_BEARISH"
        else if chg < -10 then "BEARISH"
        else "NEUTRAL" })
  let mfiInfo : Option MfiInfo := f.mfi.map (fun col =>
    let v := iLast col
    { value := v
      signal :=
        if 80 < v then "OVERBOUGHT"
        else if v < 20 then "OVERSOLD"
        else if 50 < v then "BULLISH"
        else if v < 50 then "BEARISH"
        else "NEUTRAL" })
  let confirmations : List ℤ :=
    (match volInfo with
     | some vi =>
       [if vi.signal = "HIGH" ∨ vi.signal = "VERY_HIGH" ∨ vi.signal = "EXTREME_HIGH" then 1
        else if vi.signal = "LOW" ∨ vi.signal = "VERY_LOW" ∨ vi.signal = "EXTREME_LOW" then -1
        else 0]
     | none => []) ++
    (match obvInfo with
     | some oi =>
       [if strContains oi.trend "BULLISH" then 1
        else if strContains oi.trend "BEARISH" then -1
        else 0]
     | none => [])
  let anyInd : Bool := volInfo.isSome || obvInfo.isSome || mfiInfo.isSome
  let confirmation : String :=
    if anyInd ∧ confirmations ≠ [] then
      let avg : ℚ := (confirmations.map (fun z => (z : ℚ))).sum / (confirmations.length : ℚ)
      if 0.3 < avg then "BULLISH_CONFIRMATION"
      else if avg < -0.3 then "BEARISH_CONFIRMATION"
      else "NEUTRAL"
    else "NEUTRAL"
  { indicators := { volume := volInfo, obv := obvInfo, mfi := mfiInfo }
    confirmation := confirmation }

/-- Embeds `_analyze_ichimoku` (returns `{}`, i.e. `none`, when the Ichimoku columns
are absent). -/
def analyzeIchimoku (f : Frame) : Option IchimokuAnalysis :=
  match f.ichiConv with
  | none => none
  | some convCol =>
    let cp := f.lastClose
    let conversion := iLast convCol
    let base := colLast f.ichiBase
    let leadingA := if 26 < f.len then colNeg f.ichiA 26 else 0
    let leadingB := if 26 < f.len then colNeg f.ichiB 26 else 0
    let lagging := if 26 < f.len then iPos (f.ichiLag.getD []) 26 else 0
    let sigs : List String :=
      (if base < conversion then ["BULLISH_TK_CROSS"]
       else if conversion < base then ["BEARISH_TK_CROSS"] else []) ++
      (if 0 < leadingA ∧ 0 < leadingB then
        (if max leadingA leadingB < cp then ["ABOVE_CLOUD"]
         else if cp < min leadingA leadingB then ["BELOW_CLOUD"]
         else ["INSIDE_CLOUD"])
       else [])
    some
      { tenkanSen := conversion
        kijunSen := base
        senkouSpanA := leadingA
        senkouSpanB := leadingB
        chikouSpan := lagging
        cloudColor :=
          if leadingB < leadingA then "GREEN"
          else if leadingA < leadingB then "RED"
          else "NEUTRAL"
        signals := sigs
        chikouSignal :=
          if 0 < lagging then
            if iPos f.closes 26 < lagging then "BULLISH"
            else if lagging < iPos f.closes 26 then "BEARISH"
            else "NEUTRAL"
          else "NEUTRAL" }

/-- Embeds `_determine_overall_trend`. -/
def determineOverallTrend (trendA : TrendAnalysis) (momentumA : MomentumAnalysis)
    (volatilityA : VolatilityAnalysis) : String :=
  let trendScore : ℚ :=
    if trendA.direction = "STRONG_BULLISH" then 90
    else if trendA.direction = "BULLISH" then 70
    else if trendA.direction = "STRONG_BEARISH" then 10
    else if trendA.direction = "BEARISH" then 30
    else 50
  let overallScore : ℚ :=
    trendScore * 0.5 + (momentumA.score : ℚ) * 0.3 + (100 - volatilityA.score * 10) * 0.2
  if 70 ≤ overallScore then "STRONG_BULLISH"
  else if 60 ≤ overallScore then "BULLISH"
  else if overallScore ≤ 30 then "STRONG_BEARISH"
  else if overallScore ≤ 40 then "BEARISH"
  else "NEUTRAL"

/-- Embeds `_technical_analysis`. -/
def technicalAnalysis (f : Frame) : TechnicalAnalysis :=
  let trendA := analyzeTrend f
  let momentumA := analyzeMomentum f
  let volatilityA := analyzeVolatility f
  let volumeA := analyzeVolume f
  { trend := some trendA
    momentum := some momentumA
    volatility := some volatilityA
    volume := some volumeA
    ichimoku := if f.ichiConv.isSome then analyzeIchimoku f else none
    overallTrend := determineOverallTrend trendA momentumA volatilityA }

/-- Embeds `_price_analysis`. -/
def priceAnalysis (f : Frame) : PriceAnalysis :=
  let b := f.lastBar
  let currentPrice := b.close
  let openPrice := b.openP
  let highPrice := b.high
  let lowPrice := b.low
  let dailyChange := currentPrice - openPrice
  let dailyChangePercent := if 0 < openPrice then dailyChange / openPrice * 100 else 0
  let dailyRange := highPrice - lowPrice
  let dailyRangePercent := if 0 < currentPrice then dailyRange / currentPrice * 100 else 0
  let positionInRange :=
    if 0 < dailyRange then (currentPrice - lowPrice) / dailyRange * 100 else 50
  let candleBody := |currentPrice - openPrice|
  let candleRange := highPrice - lowPrice
  let bodyRatioPct := if 0 < candleRange then candleBody / candleRange * 100 else 0
  { current := currentPrice
    openPrice := openPrice
    high := highPrice
    low := lowPrice
    dailyChange := dailyChange
    dailyChangePercent := dailyChangePercent
    dailyRange := dailyRange
    dailyRangePercent := dailyRangePercent
    positionInRange := positionInRange
    candle :=
      { type :=
          if bodyRatioPct < 10 then "DOJI"
          else if 90 < bodyRatioPct then "MARUBOZU"
          else "NORMAL"
        direction :=
          if openPrice < currentPrice then "BULLISH"
          else if currentPrice < openPrice then "BEARISH"
          else "NEUTRAL"
        bodyRatioPct := bodyRatioPct } }

/-! ## Pattern detector (`_pattern_analysis` and helpers) -/

/-- Engulfing detection over the previous (`c1`) and current (`c0`) bar. -/
def engulfingPatterns (c1 c0 : Bar) : List PatternMatch :=
  if c1.close < c1.openP ∧ c0.openP < c0.close ∧
      c0.openP < c1.close ∧ c1.openP < c0.close then
    [{ name := "BULLISH_ENGULFING", type := "REVERSAL", direction := "BULLISH",
       strength := "STRONG", strengthScore := 8, timeframe := "SHORT",
       description := "الگوی بازگشتی صعودی قوی" }]
  else if c1.openP < c1.close ∧ c0.close < c0.openP ∧
      c1.close < c0.openP ∧ c0.close < c1.openP then
    [{ name := "BEARISH_ENGULFING", type := "REVERSAL", direction := "BEARISH",
       strength := "STRONG", strengthScore := 8, timeframe := "SHORT",
       description := "الگوی بازگشتی نزولی قوی" }]
  else []

/-- Hammer / hanging-man detection on the last bar. -/
def hammerPatterns (c0 : Bar) : List PatternMatch :=
  let bodySize := |c0.close - c0.openP|
  let lowerShadow := min c0.openP c0.close - c0.low
  let upperShadow := c0.high - max c0.openP c0.close
  if bodySize * 2 < lowerShadow ∧ upperShadow < bodySize * 0.3 ∧ c0.openP < c0.close then
    [{ name := "HAMMER", type := "REVERSAL", direction := "BULLISH",
       strength := "MEDIUM", strengthScore := 6, timeframe := "SHORT",
       description := "الگوی چکش - بازگشت صعودی" }]
  else if bodySize * 2 < lowerShadow ∧ upperShadow < bodySize * 0.3 ∧ c0.close < c0.openP then
    [{ name := "HANGING_MAN", type := "REVERSAL", direction := "BEARISH",
       strength := "MEDIUM", strengthScore := 6, timeframe := "SHORT",
       description := "الگوی مرد به دار آویخته - بازگشت نزولی" }]
  else []

/-- The DOJI match record emitted by `_detect_candlestick_patterns`. -/
def dojiMatch : PatternMatch :=
  { name := "DOJI", type := "INDECISION", direction := "NEUTRAL",
    strength := "WEAK", strengthScore := 3, timeframe := "SHORT",
    description := "الگوی دوجی - بلاتکلیفی بازار" }

/-- Doji detection on the last bar. -/
def dojiPatterns (c0 : Bar) : List PatternMatch :=
  let bodySize := |c0.close - c0.openP|
  let candleRange := c0.high - c0.low
  if 0 < candleRange ∧ bodySize / candleRange < 0.1 then [dojiMatch] else []

/-- Morning/evening star detection over the last three bars
(`c2` = first, `c1` = second, `c0` = third). -/
def starPatterns (c2 c1 c0 : Bar) : List PatternMatch :=
  if c2.close < c2.openP ∧ |c1.close - c1.openP| < (c2.high - c2.low) * 0.3 ∧
      c0.openP < c0.close ∧ c2.close < c0.close then
    [{ name := "MORNING_STAR", type := "REVERSAL", direction := "BULLISH",
       strength := "STRONG", strengthScore := 9, timeframe := "MEDIUM",
       description := "الگوی ستاره صبحگاهی - بازگشت صعودی" }]
  else if c2.openP < c2.close ∧ |c1.close - c1.openP| < (c2.high - c2.low) * 0.3 ∧
      c0.close < c0.openP ∧ c0.close < c2.close then
    [{ name := "EVENING_STAR", type := "REVERSAL", direction := "BEARISH",
       strength := "STRONG", strengthScore := 9, timeframe := "MEDIUM",
       description := "الگوی ستاره عصرگاهی - بازگشت نزولی" }]
  else []

/-- Embeds `_detect_candlestick_patterns`: engulfing, hammer/hanging-man, doji and
star checks on the last three bars, in the source's append order. -/
def detectCandlestickPatterns (bars : List Bar) : List PatternMatch :=
  match bars.reverse with
  | c0 :: c1 :: c2 :: _ =>
    engulfingPatterns c1 c0 ++ hammerPatterns c0 ++ dojiPatterns c0 ++ starPatterns c2 c1 c0
  | _ => []

/-- Embeds `_detect_head_shoulders`: declared but computes nothing. -/
def detectHeadShoulders (_ : List Bar) : List PatternMatch := []

/-- Embeds `_detect_double_top_bottom` (over the last 20 closes).  The source divides
by the first peak/valley price with numpy-float semantics: a zero denominator
yields `inf`/`nan` and the `< 0.02` comparison is false, hence the explicit
nonzero conjunct here. -/
def detectDoubleTopBottom (bars : List Bar) : List PatternMatch :=
  if bars.length < 20 then []
  else
    let prices := lastN 20 (bars.map (·.close))
    let n := prices.length
    let peaks : List (ℕ × ℚ) :=
      (List.range n).filterMap (fun i =>
        if 1 ≤ i ∧ i + 1 < n ∧ iPos prices (i - 1) < iPos prices i ∧
            iPos prices (i + 1) < iPos prices i then
          some (i, iPos prices i)
        else none)
    let valleys : List (ℕ × ℚ) :=
      (List.range n).filterMap (fun i =>
        if 1 ≤ i ∧ i + 1 < n ∧ iPos prices i < iPos prices (i - 1) ∧
            iPos prices i < iPos prices (i + 1) then
          some (i, iPos prices i)
        else none)
    let doubleTop : List PatternMatch :=
      if 2 ≤ peaks.length then
        let p1 := (peaks.reverse.get? 1).getD (0, 0)
        let p2 := (peaks.reverse.get? 0).getD (0, 0)
        if 5 ≤ |(p2.1 : ℤ) - p1.1| ∧ |(p2.1 : ℤ) - p1.1| ≤ 15 ∧
            p1.2 ≠ 0 ∧ |p2.2 - p1.2| / p1.2 < 0.02 ∧
            valleys.any (fun v => decide (p1.1 < v.1) && decide (v.1 < p2.1)) then
          [{ name := "DOUBLE_TOP", type := "REVERSAL", direction := "BEARISH",
             strength := "MEDIUM", strengthScore := 7, timeframe := "MEDIUM",
             description := "الگوی دو قله - بازگشت نزولی" }]
        else []
      else []
    let doubleBottom : List PatternMatch :=
      if 2 ≤ valleys.length then
        let v1 := (valleys.reverse.get? 1).getD (0, 0)
        let v2 := (valleys.reverse.get? 0).getD (0, 0)
        if 5 ≤ |(v2.1 : ℤ) - v1.1| ∧ |(v2.1 : ℤ) - v1.1| ≤ 15 ∧
            v1.2 ≠ 0 ∧ |v2.2 - v1.2| / v1.2 < 0.02 ∧
            peaks.any (fun p => decide (v1.1 < p.1) && decide (p.1 < v2.1)) then
          [{ name := "DOUBLE_BOTTOM", type := "REVERSAL", direction := "BULLISH",
             strength := "MEDIUM", strengthScore := 7, timeframe := "MEDIUM",
             description := "الگوی دو دره - بازگشت صعودی" }]
        else []
      else []
    doubleTop ++ doubleBottom

/-- Least-squares slope of a series against `x = 0, 1, …` (`stats.linregress`). -/
def linSlope (ys : List ℚ) : ℚ :=
  let n : ℚ := ys.length
  let xs : List ℚ := (List.range ys.length).map (fun i => (i : ℚ))
  let sx := xs.sum
  let sy := ys.sum
  let sxy := (List.zipWith (· * ·) xs ys).sum
  let sxx := (xs.map (fun x => x * x)).sum
  (n * sxy - sx * sy) / (n * sxx - sx * sx)

/-- Embeds `_detect_triangle_patterns` (over the last 15 bars). -/
def detectTrianglePatterns (bars : List Bar) : List PatternMatch :=
  if bars.length < 15 then []
  else
    let recent := lastN 15 bars
    let highs := recent.map (·.high)
    let lows := recent.map (·.low)
    let slopeHigh := linSlope highs
    let slopeLow := linSlope lows
    let triangleType : Option String :=
      if slopeHigh < 0 ∧ 0 < slopeLow then some "SYMMETRICAL_TRIANGLE"
      else if slopeHigh < 0 ∧ |slopeLow| < 0.001 then some "DESCENDING_TRIANGLE"
      else if |slopeHigh| < 0.001 ∧ 0 < slopeLow then some "ASCENDING_TRIANGLE"
      else none
    match triangleType with
    | none => []
    | some t =>
      let highRange := pyMax highs - pyMin highs
      let lowRange := pyMax lows - pyMin lows
      if 0 < highRange ∧ 0 < lowRange then
        let volatilityRat := min highRange lowRange / max highRange lowRange
        if volatilityRat < 0.7 then
          [{ name := t, type := "CONTINUATION"
             direction :=
               if t = "ASCENDING_TRIANGLE" then "BULLISH"
               else if t = "DESCENDING_TRIANGLE" then "BEARISH"
               else "NEUTRAL"
             strength := "MEDIUM", strengthScore := 6, timeframe := "MEDIUM"
             description :=
               if t = "SYMMETRICAL_TRIANGLE" then
                 "الگوی مثلث Symmetrical Triangle - ادامه روند"
               else if t = "DESCENDING_TRIANGLE" then
                 "الگوی مثلث Descending Triangle - ادامه روند"
               else "الگوی مثلث Ascending Triangle - ادامه روند" }]
        else []
      else []

/-- Embeds `_detect_flag_pennant`: declared but computes nothing. -/
def detectFlagPennant (_ : List Bar) : List PatternMatch := []

/-- Embeds `_detect_harmonic_patterns`: declared but computes nothing. -/
def detectHarmonicPatterns (_ : List Bar) : List PatternMatch := []

/-- Embeds `_detect_fibonacci_patterns`: declared but computes nothing. -/
def detectFibonacciPatterns (_ : List Bar) : List PatternMatch := []

/-- Embeds `_detect_classic_patterns`. -/
def detectClassicPatterns (bars : List Bar) : List PatternMatch :=
  if bars.length < 20 then []
  else
    detectHeadShoulders bars ++ detectDoubleTopBottom bars ++
    detectTrianglePatterns bars ++ detectFlagPennant bars

/-- Embeds `_pattern_analysis`. -/
def patternAnalysis (f : Frame) : PatternAnalysis :=
  let pats :=
    detectCandlestickPatterns f.bars ++ detectClassicPatterns f.bars ++
    detectHarmonicPatterns f.bars ++ detectFibonacciPatterns f.bars
  let strength : ℚ :=
    if pats ≠ [] then
      ((pats.map (fun p => (p.strengthScore : ℚ))).sum) / (pats.length : ℚ)
    else 0
  { patterns := pats
    count := pats.length
    strength := strength
    hasReversal := some (pats.any (fun p => p.type = "REVERSAL"))
    hasContinuation := some (pats.any (fun p => p.type = "CONTINUATION")) }

/-! ## Key-level extractor (`_identify_key_levels` and helpers) -/

/-- The greedy 0.5% spacing filter of `_find_support_levels` /
`_find_resistance_levels`, after the first kept level. -/
def greedyFrom (lastKept : ℚ) : List ℚ → List ℚ
  | [] => []
  | p :: rest =>
    if lastKept * 1.005 < p then p :: greedyFrom p rest else greedyFrom lastKept rest

/-- The greedy loop `for price in sorted(common): if not filtered or
price > filtered[-1] * 1.005: filtered.append(price)`. -/
def greedyLevels : List ℚ → List ℚ
  | [] => []
  | p :: rest => p :: greedyFrom p rest

/-- Candidate levels: round to 4 decimals, count touches (`Counter`), keep the
ten most frequent prices (stable under the first-occurrence order, like
`Counter.most_common`), keep those touched at least 3 times, sort ascending. -/
def levelCandidates (vals : List ℚ) : List ℚ :=
  let rounded := vals.map (pyRound 4)
  let keys := firstOccur rounded
  let sorted10 :=
    (List.insertionSort (fun a b => rounded.count b ≤ rounded.count a) keys).take 10
  let common := sorted10.filter (fun p => decide (3 ≤ rounded.count p))
  List.insertionSort (· ≤ ·) common

/-- Embeds `_find_support_levels` (lookback 100). -/
def findSupportLevels (bars : List Bar) : List ℚ :=
  let lookback := min 100 bars.length
  let lows := (lastN lookback bars).map (·.low)
  (greedyLevels (levelCandidates lows)).take 5

/-- Embeds `_find_resistance_levels` (lookback 100). -/
def findResistanceLevels (bars : List Bar) : List ℚ :=
  let lookback := min 100 bars.length
  let highs := (lastN lookback bars).map (·.high)
  (greedyLevels (levelCandidates highs)).take 5

/-- Embeds `_calculate_pivot_points`. -/
def calcPivotPoints (bars : List Bar) : Option PivotPoints :=
  match bars.getLast? with
  | none => none
  | some b =>
    let pivot := (b.high + b.low + b.close) / 3
    some
      { pivot := pivot
        r1 := 2 * pivot - b.low
        r2 := pivot + (b.high - b.low)
        r3 := b.high + 2 * (pivot - b.low)
        s1 := 2 * pivot - b.high
        s2 := pivot - (b.high - b.low)
        s3 := b.low - 2 * (b.high - pivot) }

/-- Embeds `_calculate_fibonacci_levels` (lookback 50). -/
def calcFibonacciLevels (bars : List Bar) : Option FibLevels :=
  let lookback := min 50 bars.length
  let recent := lastN lookback bars
  let recentHigh := pyMax (recent.map (·.high))
  let recentLow := pyMin (recent.map (·.low))
  let priceRange := recentHigh - recentLow
  if priceRange = 0 then none
  else
    some
      { f0 := recentLow
        f236 := recentLow + priceRange * 0.236
        f382 := recentLow + priceRange * 0.382
        f500 := recentLow + priceRange * 0.5
        f618 := recentLow + priceRange * 0.618
        f786 := recentLow + priceRange * 0.786
        f1000 := recentHigh
        f1272 := recentLow + priceRange * 1.272
        f1618 := recentLow + priceRange * 1.618 }

/-- Embeds `_get_dynamic_levels`. -/
def getDynamicLevels (f : Frame) : DynamicLevels :=
  { ema20 := f.ema20.map iLast
    ema50 := f.ema50.map iLast
    ema100 := f.ema100.map iLast
    ema200 := f.ema200.map iLast
    bbUpper := if f.bbUpper.isSome then some (colLast f.bbUpper) else none
    bbMiddle := if f.bbUpper.isSome then some (colLast f.bbMiddle) else none
    bbLower := if f.bbUpper.isSome then some (colLast f.bbLower) else none }

/-- Embeds `_analyze_market_profile`. -/
def analyzeMarketProfile (f : Frame) : Option MarketProfile :=
  if f.len < 20 then none
  else
    some
      { highVolumeNodes := []
        lowVolumeNodes := []
        pointOfControl := listMean (lastN 20 f.closes) }

/-- Python `min(l, key=k)`: the first element attaining the minimal key. -/
def argminByKey (key : ℚ → ℚ) : List ℚ → Option ℚ
  | [] => none
  | x :: xs => some (xs.foldl (fun acc y => if key y < key acc then y else acc) x)

/-- Python `max(l, key=k)`: the first element attaining the maximal key. -/
def argmaxByKey (key : ℚ → ℚ) : List ℚ → Option ℚ
  | [] => none
  | x :: xs => some (xs.foldl (fun acc y => if key acc < key y then y else acc) x)

/-- Embeds `_find_nearest_level`. -/
def findNearestLevel (currentPrice : ℚ) (levels : List ℚ) (above below : Bool) :
    Option NearestLevel :=
  if levels = [] then none
  else
    let nearestO : Option ℚ :=
      if above then
        let eligible := levels.filter (fun l => currentPrice < l)
        if eligible = [] then none
        else argminByKey (fun x => |x - currentPrice|) eligible
      else if below then
        let eligible := levels.filter (fun l => l < currentPrice)
        if eligible = [] then none
        else argmaxByKey (fun x => |x - currentPrice|) eligible
      else argminByKey (fun x => |x - currentPrice|) levels
    nearestO.map (fun nearest =>
      let distance := |nearest - currentPrice|
      let distancePercent := if 0 < currentPrice then distance / currentPrice * 100 else 0
      { level := nearest
        distance := distance
        distancePercent := distancePercent
        isClose := decide (distancePercent < 0.5) })

/-- Embeds `_count_touches` (tolerance 0.001). -/
def countTouches (f : Frame) (level : ℚ) (isSupport : Bool) : ℕ :=
  let tol := level * 0.001
  if isSupport then (f.bars.filter (fun b => decide (|b.low - level| ≤ tol))).length
  else (f.bars.filter (fun b => decide (|b.high - level| ≤ tol))).length

/-- Embeds `_calculate_level_strength`. -/
def calcLevelStrength (f : Frame) (supportLevels resistanceLevels : List ℚ) :
    LevelStrength :=
  { support := supportLevels.map (fun level =>
      let touches := countTouches f level true
      (level, { touches := touches, strength := min 10 (touches * 2) }))
    resistance := resistanceLevels.map (fun level =>
      let touches := countTouches f level false
      (level, { touches := touches, strength := min 10 (touches * 2) })) }

/-- Embeds `_identify_key_levels`. -/
def identifyKeyLevels (f : Frame) : KeyLevels :=
  let supportLevels := findSupportLevels f.bars
  let resistanceLevels := findResistanceLevels f.bars
  let cp := f.lastClose
  { support := supportLevels
    resistance := resistanceLevels
    pivotPoints := calcPivotPoints f.bars
    fibonacci := calcFibonacciLevels f.bars
    dynamic := getDynamicLevels f
    marketProfile := analyzeMarketProfile f
    nearestSupport := findNearestLevel cp supportLevels false true
    nearestResistance := findNearestLevel cp resistanceLevels true false
    levelStrength := calcLevelStrength f supportLevels resistanceLevels }

/-! ## Signal synthesizer, entry/exit pricing, analyzer risk stage -/

/-- Python `f-string` formatting `{x:.nf}` (fixed `n` decimals, half-even). -/
def fmtQ (n : ℕ) (x : ℚ) : String :=
  let y := pyRoundInt (x * 10 ^ n)
  let a := y.natAbs
  let ip := a / 10 ^ n
  let fp := a % 10 ^ n
  let fpDigits := toString fp
  let pad := String.mk (List.replicate (n - fpDigits.length) '0')
  (if y < 0 then "-" else "") ++ toString ip ++
    (if n = 0 then "" else "." ++ pad ++ fpDigits)

/-- Embeds `_calculate_confidence`. -/
def calculateConfidence (score : ℤ) (reasonCount : ℕ) (trendStrength : ℤ)
    (patternCount : ℕ) : ℤ :=
  let c1 : ℤ :=
    if 70 ≤ score ∨ score ≤ 30 then 50 + 20
    else if 60 ≤ score ∨ score ≤ 40 then 50 + 10
    else 50
  let c2 := if 3 ≤ reasonCount then c1 + 10 else c1
  let c3 := if 70 ≤ trendStrength then c2 + 10 else c2
  let c4 := if 2 ≤ patternCount then c3 + 5 else c3
  max 0 (min 100 c4)

/-- Embeds `_generate_signals`. -/
def generateSignals (tech : TechnicalAnalysis) (_price : PriceAnalysis)
    (pat : PatternAnalysis) (kl : KeyLevels) : Signals :=
  let overallTrend := tech.overallTrend
  let momentumScore : ℤ := (tech.momentum.map (·.score)).getD 50
  let trendStrength : ℤ := (tech.trend.map (·.strength)).getD 0
  let s1 : ℤ × List String :=
    if overallTrend = "STRONG_BULLISH" then (50 + 20, ["روند صعودی قوی"])
    else if overallTrend = "BULLISH" then (50 + 10, ["روند صعودی"])
    else if overallTrend = "STRONG_BEARISH" then (50 - 20, ["روند نزولی قوی"])
    else if overallTrend = "BEARISH" then (50 - 10, ["روند نزولی"])
    else (50, [])
  let s2 : ℤ × List String :=
    if 70 < momentumScore then (s1.1 + 12, s1.2 ++ ["مومنتوم صعودی قوی"])
    else if 60 < momentumScore then (s1.1 + 6, s1.2 ++ ["مومنتوم صعودی"])
    else if momentumScore < 30 then (s1.1 - 12, s1.2 ++ ["مومنتوم نزولی قوی"])
    else if momentumScore < 40 then (s1.1 - 6, s1.2 ++ ["مومنتوم نزولی"])
    else s1
  let s3 : ℤ × List String :=
    if pat.hasReversal.getD false then
      let dirs := (pat.patterns.filter (fun p => p.type = "REVERSAL")).map (·.direction)
      if dirs.contains "BULLISH" then (s2.1 + 8, s2.2 ++ ["الگوی بازگشتی صعودی"])
      else if dirs.contains "BEARISH" then (s2.1 - 8, s2.2 ++ ["الگوی بازگشتی نزولی"])
      else s2
    else s2
  let s4 : ℤ × List String :=
    if pat.hasContinuation.getD false ∧ 50 < trendStrength then
      (s3.1 + 4, s3.2 ++ ["الگوی ادامه‌دهنده"])
    else s3
  let s5 : ℤ × List String :=
    if (kl.nearestSupport.map (·.isClose)).getD false then
      (s4.1 + 6, s4.2 ++ ["نزدیک به حمایت"])
    else s4
  let s6 : ℤ × List String :=
    if (kl.nearestResistance.map (·.isClose)).getD false then
      (s5.1 - 6, s5.2 ++ ["نزدیک به مقاومت"])
    else s5
  let score : ℤ := max 0 (min 100 s6.1)
  let reasons := s6.2
  let tup : String × String × ℤ × String :=
    if 75 ≤ score then ("STRONG_BUY", "BUY", score, "LOW")
    else if 65 ≤ score then ("BUY", "BUY", score, "MEDIUM")
    else if score ≤ 25 then ("STRONG_SELL", "SELL", 100 - score, "LOW")
    else if score ≤ 35 then ("SELL", "SELL", 100 - score, "MEDIUM")
    else ("HOLD", "NO_SIGNAL", 0, "MEDIUM")
  match tup with
  | (primarySig, entrySig, strengthVal, riskLev) =>
    { primary := primarySig
      secondary := some "HOLD"
      entrySignal := some entrySig
      exitSignal := some "NO_SIGNAL"
      strength := strengthVal
      reasons := reasons
      riskLevel := riskLev
      timeframe := some
        (if 80 < trendStrength then "LONG_TERM"
         else if 50 < trendStrength then "MEDIUM_TERM"
         else "SHORT_TERM")
      confidence := calculateConfidence score reasons.length trendStrength pat.count }

/-- Embeds `_calculate_score_and_confidence`. -/
def calcScoreAndConfidence (tech : TechnicalAnalysis) (pat : PatternAnalysis)
    (signals : Signals) : ℤ × ℤ :=
  let score := signals.strength
  let confidence := signals.confidence
  let trendStrength : ℤ := (tech.trend.map (·.strength)).getD 0
  let patternStrength : ℚ := pat.strength
  let finalScore := max 0 (min 100 (pyInt ((score : ℚ) * 0.7 + (trendStrength : ℚ) * 0.3)))
  let finalConfidence :=
    max 0 (min 100 (pyInt ((confidence : ℚ) * 0.6 + patternStrength * 10 * 0.4)))
  (finalScore, finalConfidence)

/-- The four price points computed by `_calculate_buy_points` /
`_calculate_sell_points`; `none` for the whole bundle models the `{}` that the
source's exception handler returns when `max()`/`min()` is applied to an empty
candidate list (`ValueError`). -/
structure PointsBundle where
  entry : ℚ
  stopLoss : ℚ
  takeProfit1 : ℚ
  takeProfit2 : ℚ
  deriving DecidableEq

/-- Embeds `_calculate_buy_points`.  `atr` is the value the caller reads from the
frame's `atr` column (0 when the column is absent). -/
def calcBuyPoints (currentPrice : ℚ) (supportLevels resistanceLevels : List ℚ)
    (atr : ℚ) : Option PointsBundle :=
  let entryO : Option ℚ :=
    if supportLevels ≠ [] then
      let below := supportLevels.filter (fun s => s < currentPrice)
      if below = [] then none else some (pyMax below * 1.001)
    else some (currentPrice * 0.998)
  match entryO with
  | none => none
  | some entryPrice =>
    let stop0 :=
      if supportLevels ≠ [] then pyMin supportLevels * 0.995 else entryPrice * 0.99
    let stopLoss := if 0 < atr then max stop0 (entryPrice - atr * 2) else stop0
    let tp1O : Option ℚ :=
      if resistanceLevels ≠ [] then
        let above := resistanceLevels.filter (fun r => entryPrice < r)
        if above = [] then none else some (pyMin above * 0.999)
      else some (entryPrice + (entryPrice - stopLoss) * 1.5)
    match tp1O with
    | none => none
    | some tp1 =>
      let tp2 :=
        if 1 < resistanceLevels.length then
          match List.insertionSort (· ≤ ·) (resistanceLevels.filter (fun r => tp1 < r)) with
          | n0 :: _ => n0 * 0.999
          | [] => entryPrice + (entryPrice - stopLoss) * 2.5
        else entryPrice + (entryPrice - stopLoss) * 2.5
      some
        { entry := pyRound 5 entryPrice
          stopLoss := pyRound 5 stopLoss
          takeProfit1 := pyRound 5 tp1
          takeProfit2 := pyRound 5 tp2 }

/-- Embeds `_calculate_sell_points`. -/
def calcSellPoints (currentPrice : ℚ) (supportLevels resistanceLevels : List ℚ)
    (atr : ℚ) : Option PointsBundle :=
  let entryO : Option ℚ :=
    if resistanceLevels ≠ [] then
      let above := resistanceLevels.filter (fun r => currentPrice < r)
      if above = [] then none else some (pyMin above * 0.999)
    else some (currentPrice * 1.002)
  match entryO with
  | none => none
  | some entryPrice =>
    let stop0 :=
      if resistanceLevels ≠ [] then pyMax resistanceLevels * 1.005 else entryPrice * 1.01
    let stopLoss := if 0 < atr then min stop0 (entryPrice + atr * 2) else stop0
    let tp1O : Option ℚ :=
      if supportLevels ≠ [] then
        let below := supportLevels.filter (fun s => s < entryPrice)
        if below = [] then none else some (pyMax below * 1.001)
      else some (entryPrice - (stopLoss - entryPrice) * 1.5)
    match tp1O with
    | none => none
    | some tp1 =>
      let tp2 :=
        if 1 < supportLevels.length then
          match List.insertionSort (fun a b : ℚ => b ≤ a) (supportLevels.filter (fun s => s < tp1)) with
          | n0 :: _ => n0 * 1.001
          | [] => entryPrice - (stopLoss - entryPrice) * 2.5
        else entryPrice - (stopLoss - entryPrice) * 2.5
      some
        { entry := pyRound 5 entryPrice
          stopLoss := pyRound 5 stopLoss
          takeProfit1 := pyRound 5 tp1
          takeProfit2 := pyRound 5 tp2 }

/-- All-`None` bundle returned for a non-directional signal. -/
def emptyEntryExit : EntryExit :=
  { entry := none, stopLoss := none, takeProfit1 := none, takeProfit2 := none,
    riskReward := none, positionSizePercent := none }

/-- Embeds `_calculate_entry_exit_points`.  `none` models the `{}` returned by the
exception handler: it fires when the buy/sell helper returned `{}`
(`KeyError` on `entry_exit['entry']`) and when the `risk_reward_ratio` key was
never set (`KeyError` on reading it), i.e. when one of entry/stop/TP1 is falsy
(0.0) or the risk distance is not positive. -/
def calcEntryExitPoints (f : Frame) (signals : Signals) (kl : KeyLevels) :
    Option EntryExit :=
  let cp := f.lastClose
  if signals.primary ≠ "STRONG_BUY" ∧ signals.primary ≠ "BUY" ∧
      signals.primary ≠ "STRONG_SELL" ∧ signals.primary ≠ "SELL" then
    some emptyEntryExit
  else
    let isBuy := strContains signals.primary "BUY"
    let atr := if f.atr.isSome then colLast f.atr else 0
    let bundleO :=
      if isBuy then calcBuyPoints cp kl.support kl.resistance atr
      else calcSellPoints cp kl.support kl.resistance atr
    match bundleO with
    | none => none
    | some b =>
      let riskAmt := |b.entry - b.stopLoss|
      let rrO : Option ℚ :=
        if b.entry ≠ 0 ∧ b.stopLoss ≠ 0 ∧ b.takeProfit1 ≠ 0 ∧ 0 < riskAmt then
          some (pyRound 2 (|b.takeProfit1 - b.entry| / riskAmt))
        else none
      match rrO with
      | none => none
      | some rr =>
        some
          { entry := some b.entry
            stopLoss := some b.stopLoss
            takeProfit1 := some b.takeProfit1
            takeProfit2 := some b.takeProfit2
            riskReward := some rr
            positionSizePercent :=
              if rr ≠ 0 then
                some (if 2 ≤ rr then 2.0 else if 1.5 ≤ rr then 1.5 else 1.0)
              else none }

/-- Embeds `_calculate_max_position_size`. -/
def calcMaxPositionSize (riskScore : ℚ) : ℚ :=
  if 8 ≤ riskScore then 0.5
  else if 7 ≤ riskScore then 1.0
  else if 5 ≤ riskScore then 1.5
  else if 3 ≤ riskScore then 2.0
  else 2.5

/-- Embeds `_risk_analysis`.  The unguarded `atr/close` division has numpy-float
semantics in the source: for `close = 0` it yields `inf`/`nan`, so the
`> 1.5` test holds exactly when `atr > 0`; the rational embedding encodes that
case split directly. -/
def riskAnalysisA (f : Frame) (_signals : Signals) : RiskInfo :=
  let s1 : ℚ × List String :=
    match f.atr with
    | some col =>
      let ap := if f.lastClose = 0 then 0 else iLast col / f.lastClose * 100
      let isHigh := if f.lastClose = 0 then decide (0 < iLast col) else decide (1.5 < ap)
      if isHigh then (5 + 2, ["نوسان بالا: " ++ fmtQ 2 ap ++ "%"]) else (5, [])
    | none => (5, [])
  let s2 : ℚ × List String :=
    match f.adx with
    | some col => if iLast col < 20 then (s1.1 + 1, s1.2 ++ ["روند ضعیف"]) else s1
    | none => s1
  let s3 : ℚ × List String :=
    match f.volumeRat with
    | some col => if iLast col < 0.5 then (s2.1 + 1, s2.2 ++ ["حجم معاملات کم"]) else s2
    | none => s2
  let riskScore : ℚ := max 1 (min 10 s3.1)
  let riskLevel : String :=
    if 8 ≤ riskScore then "VERY_HIGH"
    else if 7 ≤ riskScore then "HIGH"
    else if 5 ≤ riskScore then "MEDIUM"
    else if 3 ≤ riskScore then "LOW"
    else "VERY_LOW"
  { score := pyRound 1 riskScore
    level := riskLevel
    factors := some s3.2
    recommendation := some
      (if riskLevel = "VERY_HIGH" ∨ riskLevel = "HIGH" then
        "از معامله خودداری کنید یا حجم را کاهش دهید"
       else if riskLevel = "MEDIUM" then "با احتیاط معامله کنید"
       else "شرایط مناسب برای معامله")
    maxPositionSizePercent := some (calcMaxPositionSize riskScore) }

/-- Embeds `_time_analysis`. -/
def timeAnalysisA (f : Frame) : TimeAnalysis :=
  if strContains f.indexName "time" then
    { dayOfWeek := some f.lastTime.dayOfWeek
      hour := some f.lastTime.hour
      isLondonSession := some (decide (8 ≤ f.lastTime.hour ∧ f.lastTime.hour ≤ 16))
      isNewyorkSession := some (decide (13 ≤ f.lastTime.hour ∧ f.lastTime.hour ≤ 21))
      isAsianSession := some (decide (f.lastTime.hour ≤ 8))
      seasonalTendency := some "NEUTRAL" }
  else
    { dayOfWeek := none, hour := none, isLondonSession := none,
      isNewyorkSession := none, isAsianSession := none,
      seasonalTendency := some "NEUTRAL" }

/-- Embeds `_generate_summary`. -/
def generateSummary (signals : Signals) (score confidence : ℤ) : String :=
  let riskLevel := signals.riskLevel
  if signals.primary = "STRONG_BUY" then
    "📈 سیگنال خرید قوی (امتیاز: " ++ toString score ++ "/100، اطمینان: " ++
      toString confidence ++ "%، ریسک: " ++ riskLevel ++ ")"
  else if signals.primary = "BUY" then
    "📈 سیگنال خرید (امتیاز: " ++ toString score ++ "/100، اطمینان: " ++
      toString confidence ++ "%، ریسک: " ++ riskLevel ++ ")"
  else if signals.primary = "STRONG_SELL" then
    "📉 سیگنال فروش قوی (امتیاز: " ++ toString (100 - score) ++ "/100، اطمینان: " ++
      toString confidence ++ "%، ریسک: " ++ riskLevel ++ ")"
  else if signals.primary = "SELL" then
    "📉 سیگنال فروش (امتیاز: " ++ toString (100 - score) ++ "/100، اطمینان: " ++
      toString confidence ++ "%، ریسک: " ++ riskLevel ++ ")"
  else
    "⏸️  بدون سیگنال واضح (امتیاز: " ++ toString score ++ "/100، اطمینان: " ++
      toString confidence ++ "%، ریسک: " ++ riskLevel ++ ")"

/-- The analyzer's `_get_recommendation`. -/
def getRecommendationA (signals : Signals) (_score confidence : ℤ) : Recommendation :=
  if signals.primary = "STRONG_BUY" ∨ signals.primary = "BUY" then
    { action := "BUY", confidence := confidence,
      message := "شرایط برای خرید مناسب است",
      riskLevel := signals.riskLevel,
      timeframe := signals.timeframe.getD "MEDIUM_TERM" }
  else if signals.primary = "STRONG_SELL" ∨ signals.primary = "SELL" then
    { action := "SELL", confidence := confidence,
      message := "شرایط برای فروش مناسب است",
      riskLevel := signals.riskLevel,
      timeframe := signals.timeframe.getD "MEDIUM_TERM" }
  else
    { action := "WAIT", confidence := confidence,
      message := "منتظر فرصت بهتر باشید",
      riskLevel := if confidence < 30 then "HIGH" else "MEDIUM",
      timeframe := "SHORT_TERM" }

/-- Embeds `_get_empty_analysis`: the canonical empty-analysis sentinel. -/
def getEmptyAnalysis (symbol timeframe now : String) : AnalysisResult :=
  { symbol := symbol
    timeframe := timeframe
    timestamp := now
    currentPrice := 0
    technical :=
      { trend := none, momentum := none, volatility := none, volume := none,
        ichimoku := none, overallTrend := "NEUTRAL" }
    price := none
    patterns :=
      { patterns := [], count := 0, strength := 0,
        hasReversal := none, hasContinuation := none }
    time :=
      { dayOfWeek := none, hour := none, isLondonSession := none,
        isNewyorkSession := none, isAsianSession := none, seasonalTendency := none }
    keyLevels := none
    signals :=
      { primary := "HOLD", secondary := none, entrySignal := none, exitSignal := none,
        strength := 0, reasons := ["خطا در تحلیل"], riskLevel := "HIGH",
        timeframe := none, confidence := 0 }
    score := 0
    confidence := 0
    entryExit := none
    risk :=
      { score := 10, level := "VERY_HIGH", factors := none,
        recommendation := none, maxPositionSizePercent := none }
    summary := "خطا در تحلیل تکنیکال"
    recommendation :=
      { action := "WAIT", confidence := 0, message := "خطا در تحلیل",
        riskLevel := "HIGH", timeframe := "UNKNOWN" } }

/-- Embeds `analyze_symbol`: the top-level analysis pipeline.  `lib` is the external
indicator library, `now` the generation timestamp (`datetime.now()`). -/
def analyzeSymbol (lib : IndicatorLib) (inp : InputBars)
    (symbol timeframe now : String) : AnalysisResult :=
  if inp.bars.length < 100 then getEmptyAnalysis symbol timeframe now
  else
    let f := calcAllIndicators lib inp
    let tech := technicalAnalysis f
    let priceA := priceAnalysis f
    let pat := patternAnalysis f
    let timeA := timeAnalysisA f
    let kl := identifyKeyLevels f
    let signals := generateSignals tech priceA pat kl
    let sc := calcScoreAndConfidence tech pat signals
    let entryExit := calcEntryExitPoints f signals kl
    let riskA := riskAnalysisA f signals
    { symbol := symbol
      timeframe := timeframe
      timestamp := now
      currentPrice := f.lastClose
      technical := tech
      price := some priceA
      patterns := pat
      time := timeA
      keyLevels := some kl
      signals := signals
      score := sc.1
      confidence := sc.2
      entryExit := entryExit
      risk := riskA
      summary := generateSummary signals sc.1 sc.2
      recommendation := getRecommendationA signals sc.1 sc.2 }

/-! ## Risk engine (`risk_manager.py`) -/

/-- The risk configuration map; a `none` field is an absent key, read through
`dict.get` with the source's default. -/
structure RiskConfig where
  maxRiskScore : Option ℚ
  minConfidence : Option ℚ
  maxTradeRisk : Option ℚ
  deriving DecidableEq

structure TechnicalRisk where
  score : ℚ
  factors : List String
  warnings : List String
  trendStrength : ℤ
  alignmentScore : ℚ
  momentumScore : ℤ
  deriving DecidableEq

structure PriceRiskExtra where
  dailyChange : ℚ
  dailyRange : ℚ
  positionInRange : ℚ
  candleType : String
  deriving DecidableEq

/-- Field `extra` is `none` for the invalid-price early return, which carries only
`score`/`factors`/`warnings`. -/
structure PriceRisk where
  score : ℚ
  factors : List String
  warnings : List String
  extra : Option PriceRiskExtra
  deriving DecidableEq

structure PatternRiskBase where
  patternCount : ℕ
  hasReversal : Bool
  hasContinuation : Bool
  deriving DecidableEq

structure PatternRiskFull where
  patternStrength : ℚ
  validPatterns : ℕ
  deriving DecidableEq

/-- The no-pattern early return carries `base` but not `full`. -/
structure PatternRisk where
  score : ℚ
  factors : List String
  warnings : List String
  base : Option PatternRiskBase
  full : Option PatternRiskFull
  deriving DecidableEq

structure LevelRiskExtra where
  supportDistance : ℚ
  resistanceDistance : ℚ
  avgSupportStrength : ℚ
  avgResistanceStrength : ℚ
  priceRangePercent : ℚ
  deriving DecidableEq

structure LevelRisk where
  score : ℚ
  factors : List String
  warnings : List String
  extra : Option LevelRiskExtra
  deriving DecidableEq

structure RrExtra where
  rrVal : ℚ
  atrMultiple : ℚ
  tpDistancePercent : ℚ
  deriving DecidableEq

/-- Field `extra` is `none` for the exception fallback (`TypeError` on comparing a
`None` entry/stop/target value). -/
structure RrRisk where
  score : ℚ
  factors : List String
  warnings : List String
  extra : Option RrExtra
  deriving DecidableEq

structure VolumeRisk where
  score : ℚ
  factors : List String
  warnings : List String
  volRat : ℚ
  obvTrend : String
  mfiValue : ℚ
  mfiSignal : String
  volumeConfirmation : String
  deriving DecidableEq

structure VolatilityRisk where
  score : ℚ
  factors : List String
  warnings : List String
  overallVolatility : String
  volatilityScore : ℚ
  atrPercent : ℚ
  bbWidth : ℚ
  bbPosition : String
  bbSqueeze : Bool
  kcWidthPercent : ℚ
  historicalVolRat : ℚ
  deriving DecidableEq

structure OverallRisk where
  score : ℚ
  technicalScore : ℚ
  priceScore : ℚ
  patternScore : ℚ
  levelScore : ℚ
  rrScore : ℚ
  volumeScore : ℚ
  volatilityScore : ℚ
  warnings : List String
  factors : List String
  weightedAverage : Bool
  deriving DecidableEq

structure Restrictions where
  maxPositionSizePercent : ℚ
  maxLeverage : ℤ
  requireStopLoss : Bool
  requireTakeProfit : Bool
  maxDurationDays : ℤ
  allowHedging : Bool
  requireTrailingStop : Bool
  deriving DecidableEq

structure RiskAssessment where
  symbol : String
  timestamp : String
  technicalRisk : TechnicalRisk
  priceRisk : PriceRisk
  patternRisk : PatternRisk
  levelRisk : LevelRisk
  rrRisk : RrRisk
  volumeRisk : VolumeRisk
  volatilityRisk : VolatilityRisk
  overallRisk : OverallRisk
  tradeSignal : String
  confidence : ℤ
  positionSizePercent : ℚ
  riskLevel : String
  recommendation : String
  warnings : List String
  restrictions : Restrictions
  deriving DecidableEq

/-- The mutable state of a `RiskManager` object (`__init__`): the three
history lists.  `default_limits` is a constant the embedded operations never
read or write, so it is not part of the state. -/
structure RiskManagerState where
  riskHistory : List RiskAssessment
  violations : List String
  tradeJournal : List String
  deriving DecidableEq

/-- Embeds `_check_indicator_alignment`. -/
def checkIndicatorAlignment (technical : TechnicalAnalysis) : ℚ :=
  let trendDirection := (technical.trend.map (·.direction)).getD "NEUTRAL"
  let macdSignal := (technical.trend.map (·.macd.crossSignal)).getD "NEUTRAL"
  let rsiSignal :=
    ((technical.momentum.bind (fun m => m.indicators.rsi)).map (·.signal)).getD "NEUTRAL"
  let stochSignal :=
    ((technical.momentum.bind (fun m => m.indicators.stochastic)).map (·.signal)).getD "NEUTRAL"
  let indicators : List ℤ :=
    (if trendDirection ≠ "NEUTRAL" then
      [if strContains trendDirection "BULLISH" then 1 else -1]
     else []) ++
    (if strContains macdSignal "BULLISH" then [1]
     else if strContains macdSignal "BEARISH" then [-1] else []) ++
    (if rsiSignal = "BULLISH" ∨ rsiSignal = "OVERSOLD" then [1]
     else if rsiSignal = "BEARISH" ∨ rsiSignal = "OVERBOUGHT" then [-1] else []) ++
    (if strContains stochSignal "BULLISH" then [1]
     else if strContains stochSignal "BEARISH" then [-1] else [])
  if indicators = [] then 50
  else
    let bullCount := (indicators.filter (fun i => decide (0 < i))).length
    let bearCount := (indicators.filter (fun i => decide (i < 0))).length
    let total := indicators.length
    if bullCount = total then 100
    else if bearCount = total then 0
    else ((max bullCount bearCount : ℚ) / (total : ℚ)) * 100

/-- Embeds `_check_conflicting_signals`. -/
def checkConflictingSignals (technical : TechnicalAnalysis) : List String :=
  let trendDirection := (technical.trend.map (·.direction)).getD "NEUTRAL"
  let rsiSignal :=
    ((technical.momentum.bind (fun m => m.indicators.rsi)).map (·.signal)).getD "NEUTRAL"
  let w1 : List String :=
    if strContains trendDirection "BULLISH" then
      if rsiSignal = "OVERBOUGHT" then ["تضاد: روند صعودی ولی RSI در منطقه اشباع خرید"]
      else []
    else if strContains trendDirection "BEARISH" then
      if rsiSignal = "OVERSOLD" then ["تضاد: روند نزولی ولی RSI در منطقه اشباع فروش"]
      else []
    else []
  let macdDivergence :=
    ((technical.momentum.bind (fun m => m.indicators.rsi)).map (·.divergence)).getD
      "NO_DIVERGENCE"
  let w2 : List String :=
    if macdDivergence ≠ "NO_DIVERGENCE" then
      if (strContains trendDirection "BULLISH" ∧ strContains macdDivergence "BEARISH") ∨
          (strContains trendDirection "BEARISH" ∧ strContains macdDivergence "BULLISH") then
        ["تضاد: واگرایی " ++ macdDivergence ++ " در جهت مخالف روند"]
      else []
    else []
  w1 ++ w2

/-- Embeds `_assess_technical_risk`. -/
def assessTechnicalRisk (analysis : AnalysisResult) : TechnicalRisk :=
  let technical := analysis.technical
  let trendStrength : ℤ := (technical.trend.map (·.strength)).getD 0
  let s1 : ℚ × List String × List String :=
    if 80 ≤ trendStrength then (5 - 1.5, ["روند قوی"], [])
    else if trendStrength ≤ 20 then (5 + 2.0, ["روند ضعیف"], ["روند بازار ضعیف است"])
    else (5, [], [])
  let alignmentScore := checkIndicatorAlignment technical
  let s2 : ℚ × List String × List String :=
    if 80 ≤ alignmentScore then (s1.1 - 1.0, s1.2.1 ++ ["همسویی اندیکاتورها"], s1.2.2)
    else if alignmentScore ≤ 40 then
      (s1.1 + 1.5, s1.2.1 ++ ["عدم همسویی اندیکاتورها"], s1.2.2 ++ ["اندیکاتورها همسو نیستند"])
    else s1
  let conflicting := checkConflictingSignals technical
  let s3 : ℚ × List String × List String :=
    if conflicting ≠ [] then
      (s2.1 + (conflicting.length : ℚ) * 0.5,
       s2.2.1 ++ [toString conflicting.length ++ " سیگنال متضاد"],
       s2.2.2 ++ conflicting)
    else s2
  let momentumScore : ℤ := (technical.momentum.map (·.score)).getD 50
  let s4 : ℚ × List String × List String :=
    if 70 < momentumScore then (s3.1 - 0.5, s3.2.1 ++ ["مومنتوم قوی"], s3.2.2)
    else if momentumScore < 30 then
      (s3.1 + 1.0, s3.2.1 ++ ["مومنتوم ضعیف"], s3.2.2 ++ ["مومنتوم بازار ضعیف است"])
    else s3
  { score := pyRound 1 (max 1 (min 10 s4.1))
    factors := s4.2.1
    warnings := s4.2.2
    trendStrength := trendStrength
    alignmentScore := alignmentScore
    momentumScore := momentumScore }

/-- Embeds `_assess_price_risk`. -/
def assessPriceRisk (analysis : AnalysisResult) : PriceRisk :=
  let priceData := analysis.price
  let currentPrice := (priceData.map (·.current)).getD 0
  if currentPrice ≤ 0 then
    { score := 10.0, factors := ["قیمت نامعتبر"], warnings := ["قیمت صفر یا منفی"],
      extra := none }
  else
    let dcp := (priceData.map (·.dailyChangePercent)).getD 0
    let s1 : ℚ × List String × List String :=
      if 3 < |dcp| then
        (5 + 2.0, ["تغییر شدید روزانه: " ++ fmtQ 2 dcp ++ "%"],
         ["تغییرات قیمتی شدید در یک روز"])
      else if 1.5 < |dcp| then
        (5 + 1.0, ["تغییر قابل توجه روزانه: " ++ fmtQ 2 dcp ++ "%"], [])
      else (5, [], [])
    let drp := (priceData.map (·.dailyRangePercent)).getD 0
    let s2 : ℚ × List String × List String :=
      if 2 < drp then (s1.1 + 1.5, s1.2.1 ++ ["محدوده وسیع روزانه: " ++ fmtQ 2 drp ++ "%"], s1.2.2)
      else if 1 < drp then
        (s1.1 + 0.5, s1.2.1 ++ ["محدوده متوسط روزانه: " ++ fmtQ 2 drp ++ "%"], s1.2.2)
      else s1
    let pir := (priceData.map (·.positionInRange)).getD 50
    let s3 : ℚ × List String × List String :=
      if 80 < pir then
        (s2.1 + 1.0, s2.2.1 ++ ["قیمت در سقف محدوده روزانه"],
         s2.2.2 ++ ["قیمت نزدیک به سقف روزانه - احتمال مقاومت"])
      else if pir < 20 then
        (s2.1 + 1.0, s2.2.1 ++ ["قیمت در کف محدوده روزانه"],
         s2.2.2 ++ ["قیمت نزدیک به کف روزانه - احتمال حمایت"])
      else s2
    let candleType := (priceData.map (·.candle.type)).getD "NORMAL"
    let s4 : ℚ × List String × List String :=
      if candleType = "DOJI" then (s3.1 + 0.5, s3.2.1 ++ ["کندل دوجی - بلاتکلیفی"], s3.2.2)
      else if candleType = "MARUBOZU" then
        (s3.1 + 1.0, s3.2.1 ++ ["کندل ماروبوزو - قدرت خرید/فروش"], s3.2.2)
      else s3
    { score := pyRound 1 (max 1 (min 10 s4.1))
      factors := s4.2.1
      warnings := s4.2.2
      extra := some
        { dailyChange := dcp, dailyRange := drp, positionInRange := pir,
          candleType := candleType } }

/-- Embeds `_validate_patterns`: in this embedding every record carries the required
fields, so validity reduces to the qualitative-strength membership check. -/
def validatePatterns (patterns : List PatternMatch) : List PatternMatch :=
  patterns.filter (fun p =>
    p.strength = "STRONG" ∨ p.strength = "MEDIUM" ∨ p.strength = "WEAK")

/-- Embeds `_assess_pattern_risk`. -/
def assessPatternRisk (analysis : AnalysisResult) : PatternRisk :=
  let patternsData := analysis.patterns
  let patterns := patternsData.patterns
  if patterns = [] then
    { score := 5.0, factors := ["بدون الگوی مشخص"], warnings := [],
      base := some { patternCount := 0, hasReversal := false, hasContinuation := false },
      full := none }
  else
    let patternCount := patterns.length
    let hasReversal := patternsData.hasReversal.getD false
    let hasContinuation := patternsData.hasContinuation.getD false
    let patternStrength := patternsData.strength
    let s1 : ℚ × List String × List String :=
      if 3 ≤ patternCount then
        (5 + 1.0, ["تعداد الگوها زیاد: " ++ toString patternCount],
         ["الگوهای متعدد ممکن است سیگنال‌های متضاد ایجاد کنند"])
      else (5, [], [])
    let s2 : ℚ × List String × List String :=
      if 7 ≤ patternStrength then (s1.1 - 1.5, s1.2.1 ++ ["الگوهای قوی"], s1.2.2)
      else if patternStrength ≤ 3 then
        (s1.1 + 1.5, s1.2.1 ++ ["الگوهای ضعیف"], s1.2.2 ++ ["الگوهای شناسایی شده ضعیف هستند"])
      else s1
    let s3 : ℚ × List String × List String :=
      if hasReversal ∧ hasContinuation then
        (s2.1 + 2.0, s2.2.1 ++ ["الگوهای بازگشتی و ادامه‌دهنده همزمان"],
         s2.2.2 ++ ["تداخل الگوهای بازگشتی و ادامه‌دهنده"])
      else s2
    let directions := (patterns.filter (fun p => p.direction ≠ "NEUTRAL")).map (·.direction)
    let bullPatterns := (directions.filter (fun d => strContains d "BULLISH")).length
    let bearPatterns := (directions.filter (fun d => strContains d "BEARISH")).length
    let s4 : ℚ × List String × List String :=
      if directions ≠ [] ∧ 0 < bullPatterns ∧ 0 < bearPatterns then
        (s3.1 + 1.5, s3.2.1 ++ ["الگوهای با جهت‌گیری متضاد"],
         s3.2.2 ++ ["الگوهای صعودی و نزولی همزمان وجود دارند"])
      else s3
    let validCount := (validatePatterns patterns).length
    let s5 : ℚ × List String × List String :=
      if validCount < patternCount then
        (s4.1 + ((patternCount - validCount : ℕ) : ℚ) * 0.5,
         s4.2.1 ++ [toString (patternCount - validCount) ++ " الگوی نامعتبر"], s4.2.2)
      else s4
    { score := pyRound 1 (max 1 (min 10 s5.1))
      factors := s5.2.1
      warnings := s5.2.2
      base := some
        { patternCount := patternCount, hasReversal := hasReversal,
          hasContinuation := hasContinuation }
      full := some { patternStrength := patternStrength, validPatterns := validCount } }

/-- Embeds `_assess_level_risk`. -/
def assessLevelRisk (analysis : AnalysisResult) : LevelRisk :=
  let keyLevels := analysis.keyLevels
  let currentPrice := ((analysis.price.map (·.current))).getD 0
  if currentPrice ≤ 0 then
    { score := 10.0, factors := ["قیمت نامعتبر"], warnings := [], extra := none }
  else
    let supportDistance :=
      ((keyLevels.bind (·.nearestSupport)).map (·.distancePercent)).getD 100
    let resistanceDistance :=
      ((keyLevels.bind (·.nearestResistance)).map (·.distancePercent)).getD 100
    let s1 : ℚ × List String × List String :=
      if supportDistance < 0.5 then (5 - 1.0, ["نزدیک به حمایت قوی"], [])
      else if supportDistance < 1.0 then (5 - 0.5, ["نزدیک به حمایت"], [])
      else (5, [], [])
    let s2 : ℚ × List String × List String :=
      if resistanceDistance < 0.5 then
        (s1.1 + 1.0, s1.2.1 ++ ["نزدیک به مقاومت قوی"],
         s1.2.2 ++ ["قیمت نزدیک به مقاومت - احتمال بازگشت"])
      else if resistanceDistance < 1.0 then
        (s1.1 + 0.5, s1.2.1 ++ ["نزدیک به مقاومت"], s1.2.2)
      else s1
    let levelStrength := (keyLevels.map (·.levelStrength)).getD { support := [], resistance := [] }
    let supportStrengths := levelStrength.support.map (fun e => (e.2.strength : ℚ))
    let resistanceStrengths := levelStrength.resistance.map (fun e => (e.2.strength : ℚ))
    let avgSupportStrength := if supportStrengths ≠ [] then listMean supportStrengths else 0
    let avgResistanceStrength :=
      if resistanceStrengths ≠ [] then listMean resistanceStrengths else 0
    let s3 : ℚ × List String × List String :=
      if 7 ≤ avgSupportStrength then (s2.1 - 0.5, s2.2.1 ++ ["حمایت‌های قوی"], s2.2.2)
      else s2
    let s4 : ℚ × List String × List String :=
      if 7 ≤ avgResistanceStrength then (s3.1 + 0.5, s3.2.1 ++ ["مقاومت‌های قوی"], s3.2.2)
      else s3
    let supportLevels := (keyLevels.map (·.support)).getD []
    let resistanceLevels := (keyLevels.map (·.resistance)).getD []
    let s5 : ℚ × List String × List String :=
      if supportLevels ≠ [] ∧ currentPrice < pyMin supportLevels then
        (s4.1 + 2.0, s4.2.1 ++ ["شکست حمایت"],
         s4.2.2 ++ ["شکست سطح حمایت - احتمال ادامه نزول"])
      else s4
    let s6 : ℚ × List String × List String :=
      if resistanceLevels ≠ [] ∧ pyMax resistanceLevels < currentPrice then
        (s5.1 - 2.0, s5.2.1 ++ ["شکست مقاومت"],
         s5.2.2 ++ ["شکست سطح مقاومت - احتمال ادامه صعود"])
      else s5
    let squeezeInfo : ℚ × Bool :=
      if 2 ≤ supportLevels.length ∧ 2 ≤ resistanceLevels.length then
        let priceRange := pyMax resistanceLevels - pyMin supportLevels
        (priceRange / currentPrice * 100, true)
      else (0, false)
    let s7 : ℚ × List String × List String :=
      if squeezeInfo.2 ∧ squeezeInfo.1 < 2 then
        (s6.1 + 1.0, s6.2.1 ++ ["فشردگی قیمت"],
         s6.2.2 ++ ["فشردگی قیمت - احتمال حرکت شدید"])
      else s6
    { score := pyRound 1 (max 1 (min 10 s7.1))
      factors := s7.2.1
      warnings := s7.2.2
      extra := some
        { supportDistance := supportDistance
          resistanceDistance := resistanceDistance
          avgSupportStrength := pyRound 1 avgSupportStrength
          avgResistanceStrength := pyRound 1 avgResistanceStrength
          priceRangePercent := if squeezeInfo.2 then squeezeInfo.1 else 0 } }

/-- Read a numeric `entry_exit` value as the source's `.get(key, 0)` followed
by a comparison: an absent dict gives 0, a present key holding Python `None`
raises `TypeError` when compared (modelled as `Except.error`). -/
def eeGet (ee : Option EntryExit) (fld : EntryExit → Option ℚ) : Except Unit ℚ :=
  match ee with
  | none => Except.ok 0
  | some e =>
    match fld e with
    | none => Except.error ()
    | some v => Except.ok v

/-- The body of `_assess_risk_reward`; `Except.error` is an uncaught
`TypeError` inside the `try` block. -/
def rrCore (analysis : AnalysisResult) : Except Unit RrRisk := do
  let ee := analysis.entryExit
  let rrQ ← eeGet ee (·.riskReward)
  let s1 : ℚ × List String × List String :=
    if rrQ ≤ 0 then
      (10.0, ["نسبت R/R نامعتبر"], ["نسبت ریسک به ریوارد محاسبه نشده"])
    else if 3 ≤ rrQ then (5 - 2.0, ["نسبت R/R عالی: " ++ fmtQ 2 rrQ], [])
    else if 2 ≤ rrQ then (5 - 1.5, ["نسبت R/R خوب: " ++ fmtQ 2 rrQ], [])
    else if 1.5 ≤ rrQ then (5 - 1.0, ["نسبت R/R قابل قبول: " ++ fmtQ 2 rrQ], [])
    else if 1 ≤ rrQ then
      (5 + 0.5, ["نسبت R/R ضعیف: " ++ fmtQ 2 rrQ], ["نسبت ریسک به ریوارد ضعیف"])
    else
      (5 + 2.0, ["نسبت R/R بسیار ضعیف: " ++ fmtQ 2 rrQ],
       ["نسبت ریسک به ریوارد بسیار ضعیف - معامله توصیه نمی‌شود"])
  let atr :=
    ((analysis.technical.volatility.bind (fun v => v.indicators.atr)).map (·.value)).getD 0
  let s2am : (ℚ × List String × List String) × ℚ ←
    if 0 < atr then do
      let entryV ← eeGet ee (·.entry)
      if 0 < entryV then do
        let stopV ← eeGet ee (·.stopLoss)
        if 0 < stopV then
          let am := |entryV - stopV| / atr
          if am < 1 then
            pure ((s1.1 + 1.5, s1.2.1 ++ ["استاپ بسیار کوچک: " ++ fmtQ 1 am ++ "xATR"],
                   s1.2.2 ++ ["استاپ‌لاس بسیار نزدیک - احتمال hit شدن بالا"]), am)
          else if 3 < am then
            pure ((s1.1 + 1.0, s1.2.1 ++ ["استاپ بسیار بزرگ: " ++ fmtQ 1 am ++ "xATR"],
                   s1.2.2 ++ ["استاپ‌لاس بسیار دور - ریسک زیاد"]), am)
          else if 1.5 ≤ am ∧ am ≤ 2.5 then
            pure ((s1.1 - 0.5, s1.2.1 ++ ["استاپ ایده‌آل: " ++ fmtQ 1 am ++ "xATR"], s1.2.2), am)
          else pure (s1, am)
        else pure (s1, 0)
      else pure (s1, 0)
    else pure (s1, 0)
  let s2 := s2am.1
  let s3td : (ℚ × List String × List String) × ℚ ← do
    let tp1V ← eeGet ee (·.takeProfit1)
    if 0 < tp1V then do
      let tp2V ← eeGet ee (·.takeProfit2)
      if 0 < tp2V then do
        let entryV ← eeGet ee (·.entry)
        if 0 < entryV then
          let tdp := |tp2V - tp1V| / entryV * 100
          if 5 < tdp then
            pure ((s2.1 + 0.5,
                   s2.2.1 ++ ["فاصله زیاد بین تارگت‌ها: " ++ fmtQ 1 tdp ++ "%"], s2.2.2), tdp)
          else pure (s2, tdp)
        else pure (s2, 0)
      else pure (s2, 0)
    else pure (s2, 0)
  let s3 := s3td.1
  pure
    { score := pyRound 1 (max 1 (min 10 s3.1))
      factors := s3.2.1
      warnings := s3.2.2
      extra := some
        { rrVal := rrQ, atrMultiple := s2am.2, tpDistancePercent := s3td.2 } }

/-- Embeds `_assess_risk_reward`: the body with the `except` fallback. -/
def assessRiskReward (analysis : AnalysisResult) : RrRisk :=
  match rrCore analysis with
  | .ok r => r
  | .error _ => { score := 5.0, factors := ["خطا در تحلیل"], warnings := [], extra := none }

/-- Embeds `_assess_volume_risk`. -/
def assessVolumeRisk (analysis : AnalysisResult) : VolumeRisk :=
  let volumeData := analysis.technical.volume
  let volumeIndicators := volumeData.map (·.indicators)
  let volInfo := volumeIndicators.bind (·.volume)
  let volumeRat := (volInfo.map (·.volRat)).getD 1
  let s1 : ℚ × List String × List String :=
    if 3 < volumeRat then (5 - 1.0, ["حجم بسیار بالا: " ++ fmtQ 1 volumeRat ++ "x"], [])
    else if 2 < volumeRat then (5 - 0.5, ["حجم بالا: " ++ fmtQ 1 volumeRat ++ "x"], [])
    else if volumeRat < 0.3 then
      (5 + 2.0, ["حجم بسیار پایین: " ++ fmtQ 1 volumeRat ++ "x"],
       ["حجم معاملات بسیار پایین - عدم تایید حرکت"])
    else if volumeRat < 0.5 then
      (5 + 1.0, ["حجم پایین: " ++ fmtQ 1 volumeRat ++ "x"], ["حجم معاملات پایین"])
    else (5, [], [])
  let obvTrend := ((volumeIndicators.bind (·.obv)).map (·.trend)).getD "NEUTRAL"
  let s2 : ℚ × List String × List String :=
    if strContains obvTrend "BULLISH" then (s1.1 - 0.5, s1.2.1 ++ ["تایید حجم صعودی"], s1.2.2)
    else if strContains obvTrend "BEARISH" then
      (s1.1 + 0.5, s1.2.1 ++ ["تایید حجم نزولی"], s1.2.2)
    else s1
  let mfiInfo := volumeIndicators.bind (·.mfi)
  let mfiValue := (mfiInfo.map (·.value)).getD 50
  let mfiSignal := (mfiInfo.map (·.signal)).getD "NEUTRAL"
  let s3 : ℚ × List String × List String :=
    if mfiSignal = "OVERBOUGHT" then
      (s2.1 + 1.0, s2.2.1 ++ ["MFI در منطقه اشباع خرید"],
       s2.2.2 ++ ["اشباع خرید در شاخص جریان مالی"])
    else if mfiSignal = "OVERSOLD" then
      (s2.1 - 1.0, s2.2.1 ++ ["MFI در منطقه اشباع فروش"], s2.2.2)
    else s2
  let volumeConfirmation := (volumeData.map (·.confirmation)).getD "NEUTRAL"
  let s4 : ℚ × List String × List String :=
    if volumeConfirmation = "BEARISH_CONFIRMATION" then
      (s3.1 + 1.0, s3.2.1 ++ ["تایید حجم نزولی"], s3.2.2)
    else if volumeConfirmation = "BULLISH_CONFIRMATION" then
      (s3.1 - 1.0, s3.2.1 ++ ["تایید حجم صعودی"], s3.2.2)
    else s3
  { score := pyRound 1 (max 1 (min 10 s4.1))
    factors := s4.2.1
    warnings := s4.2.2
    volRat := volumeRat
    obvTrend := obvTrend
    mfiValue := mfiValue
    mfiSignal := mfiSignal
    volumeConfirmation := volumeConfirmation }

/-- Embeds `_calculate_historical_volatility`: a stub in the source, constant 5.0. -/
def calcHistoricalVolatility (_ : AnalysisResult) : ℚ := 5.0

/-- Embeds `_assess_volatility_risk`. -/
def assessVolatilityRisk (analysis : AnalysisResult) : VolatilityRisk :=
  let volatilityData := analysis.technical.volatility
  let volatilityIndicators := volatilityData.map (·.indicators)
  let overallVolatility := (volatilityData.map (·.overall)).getD "MEDIUM"
  let volatilityScore := (volatilityData.map (·.score)).getD 5.0
  let s1 : ℚ × List String × List String :=
    if overallVolatility = "HIGH" then
      (5 + 2.0, ["نوسان بالا"], ["نوسان بازار بالا - ریسک افزایش یافته"])
    else if overallVolatility = "LOW" then (5 - 1.0, ["نوسان پایین"], [])
    else (5, [], [])
  let atrPercent := ((volatilityIndicators.bind (·.atr)).map (·.percent)).getD 0
  let s2 : ℚ × List String × List String :=
    if 2 < atrPercent then
      (s1.1 + 2.0, s1.2.1 ++ ["ATR بسیار بالا: " ++ fmtQ 2 atrPercent ++ "%"],
       s1.2.2 ++ ["نوسان روزانه بسیار بالا"])
    else if 1.5 < atrPercent then
      (s1.1 + 1.0, s1.2.1 ++ ["ATR بالا: " ++ fmtQ 2 atrPercent ++ "%"], s1.2.2)
    else if atrPercent < 0.3 then
      (s1.1 - 0.5, s1.2.1 ++ ["ATR پایین: " ++ fmtQ 2 atrPercent ++ "%"], s1.2.2)
    else s1
  let bbInfo := volatilityIndicators.bind (·.bollingerBands)
  let bbWidth := (bbInfo.map (·.width)).getD 0
  let bbPosition := (bbInfo.map (·.position)).getD "MIDDLE"
  let bbSqueeze := (bbInfo.map (·.squeeze)).getD false
  let s3 : ℚ × List String × List String :=
    if bbSqueeze then
      (s2.1 + 1.5, s2.2.1 ++ ["فشردگی باندهای بولینگر"],
       s2.2.2 ++ ["فشردگی باندهای بولینگر - احتمال حرکت شدید"])
    else s2
  let s4 : ℚ × List String × List String :=
    if bbPosition = "ABOVE_UPPER" then
      (s3.1 + 1.0, s3.2.1 ++ ["قیمت خارج از باند بالا"],
       s3.2.2 ++ ["قیمت خارج از باند بولینگر بالا - احتمال بازگشت"])
    else if bbPosition = "BELOW_LOWER" then
      (s3.1 - 1.0, s3.2.1 ++ ["قیمت خارج از باند پایین"], s3.2.2)
    else s3
  let kcWidthPercent :=
    ((volatilityIndicators.bind (·.keltnerChannel)).map (·.widthPercent)).getD 0
  let s5 : ℚ × List String × List String :=
    if 3 < kcWidthPercent then
      (s4.1 + 1.0, s4.2.1 ++ ["کانال کلتنر وسیع: " ++ fmtQ 1 kcWidthPercent ++ "%"], s4.2.2)
    else s4
  let historicalVolatility := calcHistoricalVolatility analysis
  let cvh := volatilityScore * 10 / historicalVolatility
  let s6 : ℚ × List String × List String :=
    if 0 < historicalVolatility then
      if 1.5 < cvh then
        (s5.1 + 1.0, s5.2.1 ++ ["نوسان فعلی بیشتر از میانگین تاریخی"],
         s5.2.2 ++ ["نوسان فعلی بیشتر از حد معمول است"])
      else if cvh < 0.7 then
        (s5.1 - 0.5, s5.2.1 ++ ["نوسان فعلی کمتر از میانگین تاریخی"], s5.2.2)
      else s5
    else s5
  { score := pyRound 1 (max 1 (min 10 s6.1))
    factors := s6.2.1
    warnings := s6.2.2
    overallVolatility := overallVolatility
    volatilityScore := volatilityScore
    atrPercent := atrPercent
    bbWidth := bbWidth
    bbPosition := bbPosition
    bbSqueeze := bbSqueeze
    kcWidthPercent := kcWidthPercent
    historicalVolRat := if 0 < historicalVolatility then cvh else 1.0 }

/-- Embeds `_combine_risk_scores`: weighted sum of the seven sub-scores with the
fixed weights `[0.20, 0.15, 0.10, 0.15, 0.20, 0.10, 0.10]`, rounded to one
decimal; warnings and factors concatenated and deduplicated keeping first
occurrences (`dict.fromkeys`). -/
def combineRiskScores (technicalRisk : TechnicalRisk) (priceRisk : PriceRisk)
    (patternRisk : PatternRisk) (levelRisk : LevelRisk) (rrRisk : RrRisk)
    (volumeRisk : VolumeRisk) (volatilityRisk : VolatilityRisk) : OverallRisk :=
  let weightedSum : ℚ :=
    technicalRisk.score * 0.20 + priceRisk.score * 0.15 + patternRisk.score * 0.10 +
    levelRisk.score * 0.15 + rrRisk.score * 0.20 + volumeRisk.score * 0.10 +
    volatilityRisk.score * 0.10
  let allWarnings :=
    technicalRisk.warnings ++ priceRisk.warnings ++ patternRisk.warnings ++
    levelRisk.warnings ++ rrRisk.warnings ++ volumeRisk.warnings ++
    volatilityRisk.warnings
  let allFactors :=
    technicalRisk.factors ++ priceRisk.factors ++ patternRisk.factors ++
    levelRisk.factors ++ rrRisk.factors ++ volumeRisk.factors ++
    volatilityRisk.factors
  { score := pyRound 1 weightedSum
    technicalScore := technicalRisk.score
    priceScore := priceRisk.score
    patternScore := patternRisk.score
    levelScore := levelRisk.score
    rrScore := rrRisk.score
    volumeScore := volumeRisk.score
    volatilityScore := volatilityRisk.score
    warnings := firstOccur allWarnings
    factors := firstOccur allFactors
    weightedAverage := true }

/-- The critical-warning lexicon of `_generate_trade_signal`. -/
def isCriticalWarning (w : String) : Bool :=
  strContains w "تضاد" || strContains w "شکست" || strContains w "اشباع" ||
  strContains w "شدید" || strContains w "بسیار"

/-- Embeds `_generate_trade_signal`. -/
def generateTradeSignal (overallRisk : OverallRisk) (analysis : AnalysisResult)
    (riskConfig : RiskConfig) : String × ℤ :=
  let score := overallRisk.score
  let primarySignal := analysis.signals.primary
  let confidence := analysis.signals.confidence
  let maxScoreForTrade := riskConfig.maxRiskScore.getD 6.0
  let minConfidence := riskConfig.minConfidence.getD 60
  if maxScoreForTrade < score then ("NO_TRADE", 0)
  else if (confidence : ℚ) < minConfidence then ("NO_TRADE", 0)
  else
    let criticalWarnings := overallRisk.warnings.filter isCriticalWarning
    if 2 ≤ criticalWarnings.length then ("NO_TRADE", 0)
    else if (primarySignal = "STRONG_BUY" ∨ primarySignal = "BUY") ∧
        score ≤ maxScoreForTrade then
      if primarySignal = "STRONG_BUY" then ("BUY", min 95 (confidence + 10))
      else ("BUY", confidence)
    else if (primarySignal = "STRONG_SELL" ∨ primarySignal = "SELL") ∧
        score ≤ maxScoreForTrade then
      if primarySignal = "STRONG_SELL" then ("SELL", min 95 (confidence + 10))
      else ("SELL", confidence)
    else ("HOLD", confidence)

/-- Embeds `_calculate_position_size`. -/
def calculatePositionSize (overallRisk : OverallRisk) (_analysis : AnalysisResult)
    (riskConfig : RiskConfig) : ℚ :=
  let score := overallRisk.score
  let maxTradeRisk := riskConfig.maxTradeRisk.getD 1.0
  let positionSize : ℚ :=
    if score ≤ 3.0 then maxTradeRisk * 1.5
    else if score ≤ 4.0 then maxTradeRisk * 1.2
    else if score ≤ 5.0 then maxTradeRisk
    else if score ≤ 6.0 then maxTradeRisk * 0.7
    else if score ≤ 7.0 then maxTradeRisk * 0.5
    else maxTradeRisk * 0.3
  pyRound 2 (max 0.1 (min 5.0 positionSize))

/-- Embeds `_get_risk_level`. -/
def getRiskLevel (score : ℚ) : String :=
  if score ≤ 3.0 then "VERY_LOW"
  else if score ≤ 4.0 then "LOW"
  else if score ≤ 5.0 then "MEDIUM"
  else if score ≤ 6.0 then "HIGH"
  else if score ≤ 7.0 then "VERY_HIGH"
  else "EXTREME"

/-- The risk manager's `_get_recommendation`. -/
def getRecommendationRM (score : ℚ) (signal : String) : String :=
  if signal = "NO_TRADE" then "از معامله خودداری کنید"
  else
    let riskLevel := getRiskLevel score
    if riskLevel = "VERY_LOW" then "شرایط ایده‌آل برای معامله"
    else if riskLevel = "LOW" then "شرایط خوب برای معامله"
    else if riskLevel = "MEDIUM" then "با احتیاط معامله کنید"
    else if riskLevel = "HIGH" then "فقط برای معامله‌گران با تجربه"
    else if riskLevel = "VERY_HIGH" then "معامله با ریسک بسیار بالا"
    else "به شدت از معامله خودداری کنید"

/-- Embeds `_get_trade_restrictions`. -/
def getTradeRestrictions (score : ℚ) : Restrictions :=
  let base : Restrictions :=
    { maxPositionSizePercent := 2.0, maxLeverage := 30, requireStopLoss := true,
      requireTakeProfit := true, maxDurationDays := 7, allowHedging := false,
      requireTrailingStop := false }
  if 7.0 ≤ score then
    { base with maxPositionSizePercent := 0.5, maxLeverage := 10,
                requireTrailingStop := true, maxDurationDays := 3 }
  else if 6.0 ≤ score then
    { base with maxPositionSizePercent := 1.0, maxLeverage := 20, maxDurationDays := 5 }
  else if score ≤ 3.0 then
    { base with maxPositionSizePercent := 3.0, maxLeverage := 50, allowHedging := true }
  else base

/-- Embeds `assess_trade_risk`: runs the seven sub-assessments, combines them,
produces the final decision record and appends it to `risk_history` (the
state mutation of the source's `self.risk_history.append(result)`). -/
def assessTradeRisk (st : RiskManagerState) (analysis : AnalysisResult)
    (riskConfig : RiskConfig) (now : String) : RiskManagerState × RiskAssessment :=
  let technicalRisk := assessTechnicalRisk analysis
  let priceRisk := assessPriceRisk analysis
  let patternRisk := assessPatternRisk analysis
  let levelRisk := assessLevelRisk analysis
  let rrRisk := assessRiskReward analysis
  let volumeRisk := assessVolumeRisk analysis
  let volatilityRisk := assessVolatilityRisk analysis
  let overallRisk :=
    combineRiskScores technicalRisk priceRisk patternRisk levelRisk rrRisk
      volumeRisk volatilityRisk
  let sigConf := generateTradeSignal overallRisk analysis riskConfig
  let positionSize := calculatePositionSize overallRisk analysis riskConfig
  let result : RiskAssessment :=
    { symbol := analysis.symbol
      timestamp := now
      technicalRisk := technicalRisk
      priceRisk := priceRisk
      patternRisk := patternRisk
      levelRisk := levelRisk
      rrRisk := rrRisk
      volumeRisk := volumeRisk
      volatilityRisk := volatilityRisk
      overallRisk := overallRisk
      tradeSignal := sigConf.1
      confidence := sigConf.2
      positionSizePercent := positionSize
      riskLevel := getRiskLevel overallRisk.score
      recommendation := getRecommendationRM overallRisk.score sigConf.1
      warnings := overallRisk.warnings
      restrictions := getTradeRestrictions overallRisk.score }
  ({ st with riskHistory := st.riskHistory ++ [result] }, result)

/-! ## Column-level model of `_calculate_all_indicators`

This namespace models the indicator engine at the granularity that decides
its error handling: which columns each statement of the single `try` block
reads (a missing input column raises `KeyError`) and which it adds.  The
whole block is one `try`: a raising statement aborts all later statements and
the `except` handler returns the partially augmented frame.  The
`talib.SAR` call sits in its own inner `try: ... except: pass` and never
aborts; the volume block is guarded by an `in df.columns` test and the
Ichimoku block by a length test, neither of which raises. -/

namespace IndEngine

structure Frame5 where
  cols : List String
  len : ℕ
  deriving DecidableEq

/-- All required input columns are present. -/
def hasCols (f : Frame5) (req : List String) : Prop := ∀ c ∈ req, c ∈ f.cols

instance (f : Frame5) (req : List String) : Decidable (hasCols f req) :=
  List.decidableBAll _ req

def addCols (f : Frame5) (adds : List String) : Frame5 :=
  { f with cols := f.cols ++ adds }

/-- One statement group of the `try` block. -/
inductive Step5 where
  | plain (req adds : List String)
  | ifCol (c : String) (req adds : List String)
  | ifLen (n : ℕ) (req adds : List String)
  | noAbort (req adds : List String)
  deriving DecidableEq

/-- Run the statements in order.  A `plain`/`ifCol`/`ifLen` statement whose
required column is missing raises: the rest of the `try` block is skipped and
the current frame is returned (the source's `except` returns `df`).  A
`noAbort` statement (`talib.SAR` in its inner `try`) fails silently. -/
def runSteps : List Step5 → Frame5 → Frame5
  | [], f => f
  | Step5.plain req adds :: rest, f =>
    if hasCols f req then runSteps rest (addCols f adds) else f
  | Step5.ifCol c req adds :: rest, f =>
    if c ∈ f.cols then
      (if hasCols f req then runSteps rest (addCols f adds) else f)
    else runSteps rest f
  | Step5.ifLen n req adds :: rest, f =>
    if n < f.len then
      (if hasCols f req then runSteps rest (addCols f adds) else f)
    else runSteps rest f
  | Step5.noAbort req adds :: rest, f =>
    runSteps rest (if hasCols f req then addCols f adds else f)

/-- The statement groups of `_calculate_all_indicators`, in source order. -/
def steps : List Step5 :=
  [ Step5.plain ["close"] ["ema_9"]
  , Step5.plain ["close"] ["ema_20"]
  , Step5.plain ["close"] ["ema_50"]
  , Step5.plain ["close"] ["ema_100"]
  , Step5.plain ["close"] ["ema_200"]
  , Step5.plain ["close"] ["macd", "macd_signal", "macd_diff"]
  , Step5.plain ["high", "low", "close"] ["adx", "adx_pos", "adx_neg"]
  , Step5.plain ["close"] ["rsi"]
  , Step5.plain ["high", "low", "close"] ["stoch_k", "stoch_d"]
  , Step5.plain ["high", "low", "close"] ["williams_r"]
  , Step5.plain ["high", "low", "close"] ["cci"]
  , Step5.plain ["close"] ["bb_upper", "bb_middle", "bb_lower", "bb_width", "bb_pct"]
  , Step5.plain ["high", "low", "close"] ["atr"]
  , Step5.plain ["high", "low", "close"] ["kc_upper", "kc_middle", "kc_lower"]
  , Step5.ifCol "tick_volume" ["tick_volume"] ["volume_sma", "volume_ratio"]
  , Step5.ifCol "tick_volume" ["close", "tick_volume"] ["obv"]
  , Step5.ifCol "tick_volume" ["high", "low", "close", "tick_volume"] ["mfi"]
  , Step5.ifLen 52 ["high", "low"]
      ["ichi_conversion", "ichi_base", "ichi_leading_a", "ichi_leading_b", "ichi_lagging"]
  , Step5.noAbort ["high", "low"] ["sar"]
  , Step5.plain ["close", "open"] ["body"]
  , Step5.plain ["high", "open", "close"] ["upper_shadow"]
  , Step5.plain ["open", "close", "low"] ["lower_shadow"]
  , Step5.plain ["body", "high", "low"] ["body_ratio"]
  ]

/-- Embeds `_calculate_all_indicators` at column granularity. -/
def calcAllIndicators (f : Frame5) : Frame5 := runSteps steps f

/-- Every non-volume column the block adds, in order. -/
def nonVolumeAdds : List String :=
  [ "ema_9", "ema_20", "ema_50", "ema_100", "ema_200"
  , "macd", "macd_signal", "macd_diff"
  , "adx", "adx_pos", "adx_neg"
  , "rsi"
  , "stoch_k", "stoch_d"
  , "williams_r"
  , "cci"
  , "bb_upper", "bb_middle", "bb_lower", "bb_width", "bb_pct"
  , "atr"
  , "kc_upper", "kc_middle", "kc_lower"
  , "ichi_conversion", "ichi_base", "ichi_leading_a", "ichi_leading_b", "ichi_lagging"
  , "sar"
  , "body", "upper_shadow", "lower_shadow", "body_ratio" ]

end IndEngine

/-- A trivial indicator library (every series empty, SAR failing), used to
instantiate library-parametric theorems at concrete inputs. -/
def zeroLib : IndicatorLib :=
  { ema := fun _ _ => [], macd := fun _ => [], macdSignal := fun _ => []
    macdDiff := fun _ => [], adx := fun _ => [], adxPos := fun _ => []
    adxNeg := fun _ => [], rsi := fun _ => [], stochK := fun _ => []
    stochD := fun _ => [], williamsR := fun _ => [], cci := fun _ => []
    bbUpper := fun _ => [], bbMiddle := fun _ => [], bbLower := fun _ => []
    bbWidth := fun _ => [], bbPct := fun _ => [], atr := fun _ => []
    kcUpper := fun _ => [], kcMiddle := fun _ => [], kcLower := fun _ => []
    obv := fun _ _ => [], mfi := fun _ => [], ichiConv := fun _ => []
    ichiBase := fun _ => [], ichiA := fun _ => [], ichiB := fun _ => []
    ichiLag := fun _ => [], sar := fun _ => none }

/-- Erase the generation timestamp of an analysis result. -/
def stripTimestampA (r : AnalysisResult) : AnalysisResult := { r with timestamp := "" }

/-- Erase the generation timestamp of a risk assessment. -/
def stripTimestampR (r : RiskAssessment) : RiskAssessment := { r with timestamp := "" }

/-! ## Claim theorems -/

/-! ### Helper lemmas -/

theorem firstOccur_nodup {α : Type} [DecidableEq α] (l : List α) :
    (firstOccur l).Nodup := by
  induction l with
  | nil => simp [firstOccur]
  | cons x xs ih =>
    simp only [firstOccur, List.nodup_cons]
    refine ⟨fun hx => ?_, ih.filter _⟩
    have := List.of_mem_filter hx
    simp at this

theorem le_pyRoundInt_of_le {B : ℤ} {x : ℚ} (h : (B : ℚ) ≤ x) : B ≤ pyRoundInt x := by
  have hf : B ≤ ⌊x⌋ := Int.le_floor.2 h
  unfold pyRoundInt
  split_ifs <;> omega

theorem pyRoundInt_le_of_le {x : ℚ} {B : ℤ} (h : x ≤ (B : ℚ)) : pyRoundInt x ≤ B := by
  have hf : ⌊x⌋ ≤ B := by
    have := Int.floor_le_floor h
    simpa using this
  have hfl : (⌊x⌋ : ℚ) ≤ x := Int.floor_le x
  unfold pyRoundInt
  split_ifs with h1 h2 h3
  · omega
  · have hlt : (⌊x⌋ : ℚ) < x := by linarith [h2]
    have : ⌊x⌋ < B := by
      by_contra hc
      push_neg at hc
      have : (B : ℚ) ≤ (⌊x⌋ : ℚ) := by exact_mod_cast hc
      linarith
    omega
  · omega
  · have heq : x - (⌊x⌋ : ℚ) = 1/2 := le_antisymm (not_lt.1 h2) (not_lt.1 h1)
    have hlt : (⌊x⌋ : ℚ) < x := by linarith
    have : ⌊x⌋ < B := by
      by_contra hc
      push_neg at hc
      have : (B : ℚ) ≤ (⌊x⌋ : ℚ) := by exact_mod_cast hc
      linarith
    omega

/-- Rounding `pyRound n` maps `[lo, hi]` into `[lo, hi]` when `lo * 10^n` and
`hi * 10^n` are integers. -/
theorem pyRound_mem_Icc {n : ℕ} {lo hi : ℤ} {x : ℚ}
    (hlo : (lo : ℚ) / 10 ^ n ≤ x) (hhi : x ≤ (hi : ℚ) / 10 ^ n) :
    (lo : ℚ) / 10 ^ n ≤ pyRound n x ∧ pyRound n x ≤ (hi : ℚ) / 10 ^ n := by
  have hpow : (0 : ℚ) < 10 ^ n := by positivity
  have h1 : (lo : ℚ) ≤ x * 10 ^ n := by
    rw [div_le_iff₀ hpow] at hlo; exact hlo
  have h2 : x * 10 ^ n ≤ (hi : ℚ) := by
    rw [le_div_iff₀ hpow] at hhi; exact hhi
  have hl := le_pyRoundInt_of_le h1
  have hr := pyRoundInt_le_of_le h2
  constructor
  · rw [pyRound]
    gcongr
  · rw [pyRound]
    gcongr


/-- C2: for every analysis result and every risk configuration, if the
combined overall risk score strictly exceeds the configured ceiling
`risk_config['max_risk_score']`, the trade-signal step returns `NO_TRADE`
with confidence 0, regardless of the upstream primary signal. -/
theorem C2_no_trade_above_ceiling (overallRisk : OverallRisk)
    (analysis : AnalysisResult) (riskConfig : RiskConfig)
    (h : riskConfig.maxRiskScore.getD 6.0 < overallRisk.score) :
    generateTradeSignal overallRisk analysis riskConfig = ("NO_TRADE", 0) := by
  simp only [generateTradeSignal, if_pos h]

/-- Witness for C2 at a concrete overall score 7 against the default ceiling 6. -/
theorem C2_witness :
    (RiskConfig.mk none none none).maxRiskScore.getD 6.0 <
      (OverallRisk.mk 7 5 5 5 5 5 5 5 [] [] true).score ∧
    generateTradeSignal (OverallRisk.mk 7 5 5 5 5 5 5 5 [] [] true)
      (getEmptyAnalysis "EURUSD" "H1" "t0") (RiskConfig.mk none none none) =
      ("NO_TRADE", 0) :=
  ⟨by norm_num, C2_no_trade_above_ceiling _ _ _ (by norm_num)⟩

/-- C6: the combined overall score is the weighted sum of the seven
sub-scores with weights .20/.15/.10/.15/.20/.10/.10 rounded to one decimal,
and whenever every sub-score lies in `[1, 10]` the combined score lies in
`[1, 10]` as well. -/
theorem C6_combine_weighted (t : TechnicalRisk) (p : PriceRisk) (pa : PatternRisk)
    (l : LevelRisk) (rr : RrRisk) (v : VolumeRisk) (vo : VolatilityRisk) :
    (combineRiskScores t p pa l rr v vo).score =
      pyRound 1 (t.score * 0.20 + p.score * 0.15 + pa.score * 0.10 +
        l.score * 0.15 + rr.score * 0.20 + v.score * 0.10 + vo.score * 0.10) ∧
    ((1 ≤ t.score ∧ t.score ≤ 10) → (1 ≤ p.score ∧ p.score ≤ 10) →
     (1 ≤ pa.score ∧ pa.score ≤ 10) → (1 ≤ l.score ∧ l.score ≤ 10) →
     (1 ≤ rr.score ∧ rr.score ≤ 10) → (1 ≤ v.score ∧ v.score ≤ 10) →
     (1 ≤ vo.score ∧ vo.score ≤ 10) →
     1 ≤ (combineRiskScores t p pa l rr v vo).score ∧
       (combineRiskScores t p pa l rr v vo).score ≤ 10) := by
  constructor
  · rfl
  · intro h1 h2 h3 h4 h5 h6 h7
    have hsc : (combineRiskScores t p pa l rr v vo).score =
        pyRound 1 (t.score * 0.20 + p.score * 0.15 + pa.score * 0.10 +
          l.score * 0.15 + rr.score * 0.20 + v.score * 0.10 + vo.score * 0.10) := rfl
    have hlo : ((10 : ℤ) : ℚ) / 10 ^ 1 ≤ t.score * 0.20 + p.score * 0.15 +
        pa.score * 0.10 + l.score * 0.15 + rr.score * 0.20 + v.score * 0.10 +
        vo.score * 0.10 := by
      have e : ((10 : ℤ) : ℚ) / 10 ^ 1 = 1 := by norm_num
      rw [e]
      have expand : t.score * 0.20 + p.score * 0.15 + pa.score * 0.10 +
          l.score * 0.15 + rr.score * 0.20 + v.score * 0.10 + vo.score * 0.10 =
          (t.score * 20 + p.score * 15 + pa.score * 10 + l.score * 15 +
            rr.score * 20 + v.score * 10 + vo.score * 10) / 100 := by
        norm_num
        ring
      rw [expand]
      rw [le_div_iff₀ (by norm_num : (0 : ℚ) < 100)]
      linarith [h1.1, h2.1, h3.1, h4.1, h5.1, h6.1, h7.1]
    have hhi : t.score * 0.20 + p.score * 0.15 + pa.score * 0.10 + l.score * 0.15 +
        rr.score * 0.20 + v.score * 0.10 + vo.score * 0.10 ≤
        ((100 : ℤ) : ℚ) / 10 ^ 1 := by
      have e : ((100 : ℤ) : ℚ) / 10 ^ 1 = 10 := by norm_num
      rw [e]
      have expand : t.score * 0.20 + p.score * 0.15 + pa.score * 0.10 +
          l.score * 0.15 + rr.score * 0.20 + v.score * 0.10 + vo.score * 0.10 =
          (t.score * 20 + p.score * 15 + pa.score * 10 + l.score * 15 +
            rr.score * 20 + v.score * 10 + vo.score * 10) / 100 := by
        norm_num
        ring
      rw [expand]
      rw [div_le_iff₀ (by norm_num : (0 : ℚ) < 100)]
      linarith [h1.2, h2.2, h3.2, h4.2, h5.2, h6.2, h7.2]
    have hmem := pyRound_mem_Icc hlo hhi
    rw [hsc]
    constructor
    · have := hmem.1
      rw [show ((10 : ℤ) : ℚ) / 10 ^ 1 = 1 by norm_num] at this
      exact this
    · have := hmem.2
      rw [show ((100 : ℤ) : ℚ) / 10 ^ 1 = 10 by norm_num] at this
      exact this

/-- Witness for C6 at the neutral sub-scores 5. -/
theorem C6_witness :
    (combineRiskScores (TechnicalRisk.mk 5 [] [] 0 50 50)
        (PriceRisk.mk 5 [] [] none) (PatternRisk.mk 5 [] [] none none)
        (LevelRisk.mk 5 [] [] none) (RrRisk.mk 5 [] [] none)
        (VolumeRisk.mk 5 [] [] 1 "NEUTRAL" 50 "NEUTRAL" "NEUTRAL")
        (VolatilityRisk.mk 5 [] [] "MEDIUM" 5 0 0 "MIDDLE" false 0 1)).score =
      pyRound 1 (5 * 0.20 + 5 * 0.15 + 5 * 0.10 + 5 * 0.15 + 5 * 0.20 +
        5 * 0.10 + 5 * 0.10) ∧
    (1 : ℚ) ≤ (combineRiskScores (TechnicalRisk.mk 5 [] [] 0 50 50)
        (PriceRisk.mk 5 [] [] none) (PatternRisk.mk 5 [] [] none none)
        (LevelRisk.mk 5 [] [] none) (RrRisk.mk 5 [] [] none)
        (VolumeRisk.mk 5 [] [] 1 "NEUTRAL" 50 "NEUTRAL" "NEUTRAL")
        (VolatilityRisk.mk 5 [] [] "MEDIUM" 5 0 0 "MIDDLE" false 0 1)).score := by
  refine ⟨(C6_combine_weighted _ _ _ _ _ _ _).1, ?_⟩
  have h := (C6_combine_weighted (TechnicalRisk.mk 5 [] [] 0 50 50)
      (PriceRisk.mk 5 [] [] none) (PatternRisk.mk 5 [] [] none none)
      (LevelRisk.mk 5 [] [] none) (RrRisk.mk 5 [] [] none)
      (VolumeRisk.mk 5 [] [] 1 "NEUTRAL" 50 "NEUTRAL" "NEUTRAL")
      (VolatilityRisk.mk 5 [] [] "MEDIUM" 5 0 0 "MIDDLE" false 0 1)).2
  exact (h (by norm_num) (by norm_num) (by norm_num) (by norm_num) (by norm_num)
    (by norm_num) (by norm_num)).1

/-- C10: the position-size percent produced by `_calculate_position_size`
always lies in `[0.1, 5.0]`, for every overall score and configuration. -/
theorem C10_position_size_bounds (overallRisk : OverallRisk)
    (analysis : AnalysisResult) (riskConfig : RiskConfig) :
    0.1 ≤ calculatePositionSize overallRisk analysis riskConfig ∧
      calculatePositionSize overallRisk analysis riskConfig ≤ 5.0 := by
  have key : ∀ y : ℚ, 0.1 ≤ pyRound 2 (max 0.1 (min 5.0 y)) ∧
      pyRound 2 (max 0.1 (min 5.0 y)) ≤ 5.0 := by
    intro y
    have hlo : ((10 : ℤ) : ℚ) / 10 ^ 2 ≤ max 0.1 (min 5.0 y) := by
      have : ((10 : ℤ) : ℚ) / 10 ^ 2 = 0.1 := by norm_num
      rw [this]
      exact le_max_left _ _
    have hhi : max 0.1 (min 5.0 y) ≤ ((500 : ℤ) : ℚ) / 10 ^ 2 := by
      have h500 : ((500 : ℤ) : ℚ) / 10 ^ 2 = 5.0 := by norm_num
      rw [h500]
      exact max_le (by norm_num) (min_le_left _ _)
    have hmem := pyRound_mem_Icc hlo hhi
    constructor
    · have := hmem.1
      rw [show ((10 : ℤ) : ℚ) / 10 ^ 2 = 0.1 by norm_num] at this
      exact this
    · have := hmem.2
      rw [show ((500 : ℤ) : ℚ) / 10 ^ 2 = 5.0 by norm_num] at this
      exact this
  simp only [calculatePositionSize]
  exact key _

/-! ### C7: support/resistance level properties -/

theorem greedyFrom_chain (l : List ℚ) :
    ∀ lastKept : ℚ,
      List.Chain' (fun a b => a * 1.005 < b) (lastKept :: greedyFrom lastKept l) := by
  induction l with
  | nil => intro lk; simp [greedyFrom]
  | cons p rest ih =>
    intro lk
    by_cases h : lk * 1.005 < p
    · simp only [greedyFrom, if_pos h]
      rw [List.chain'_cons]
      exact ⟨h, ih p⟩
    · simp only [greedyFrom, if_neg h]
      exact ih lk

theorem greedyLevels_chain (l : List ℚ) :
    List.Chain' (fun a b => a * 1.005 < b) (greedyLevels l) := by
  cases l with
  | nil => simp [greedyLevels]
  | cons p rest => exact greedyFrom_chain rest p

theorem greedyFrom_sublist (l : List ℚ) :
    ∀ lastKept : ℚ, (greedyFrom lastKept l).Sublist l := by
  induction l with
  | nil => intro lk; simp [greedyFrom]
  | cons p rest ih =>
    intro lk
    by_cases h : lk * 1.005 < p
    · simp only [greedyFrom, if_pos h]
      exact List.Sublist.cons₂ p (ih p)
    · simp only [greedyFrom, if_neg h]
      exact List.Sublist.cons p (ih lk)

theorem greedyLevels_sublist (l : List ℚ) : (greedyLevels l).Sublist l := by
  cases l with
  | nil => simp [greedyLevels]
  | cons p rest => exact List.Sublist.cons₂ p (greedyFrom_sublist rest p)

theorem pairwise_lt_of_sorted_nodup {l : List ℚ}
    (hs : l.Sorted (· ≤ ·)) (hn : l.Nodup) : l.Pairwise (· < ·) :=
  (List.Pairwise.and hs hn).imp (fun h => lt_of_le_of_ne h.1 h.2)

theorem levelCandidates_sorted (vals : List ℚ) :
    (levelCandidates vals).Sorted (· ≤ ·) :=
  List.sorted_insertionSort _ _

theorem levelCandidates_nodup (vals : List ℚ) : (levelCandidates vals).Nodup := by
  unfold levelCandidates
  apply List.Perm.nodup (List.perm_insertionSort _ _).symm
  apply List.Nodup.filter
  apply List.Sublist.nodup (List.take_sublist _ _)
  exact List.Perm.nodup (List.perm_insertionSort _ _).symm (firstOccur_nodup _)

/-- The three retained-level properties, for the whole extraction pipeline. -/
theorem levelPipeline_props (vals : List ℚ) :
    ((greedyLevels (levelCandidates vals)).take 5).length ≤ 5 ∧
    ((greedyLevels (levelCandidates vals)).take 5).Pairwise (· < ·) ∧
    List.Chain' (fun a b => a * 1.005 < b)
      ((greedyLevels (levelCandidates vals)).take 5) := by
  refine ⟨?_, ?_, ?_⟩
  · simp
  · have hcand : (levelCandidates vals).Pairwise (· < ·) :=
      pairwise_lt_of_sorted_nodup (levelCandidates_sorted vals) (levelCandidates_nodup vals)
    have hsub : ((greedyLevels (levelCandidates vals)).take 5).Sublist
        (levelCandidates vals) :=
      (List.take_sublist _ _).trans (greedyLevels_sublist _)
    exact List.Pairwise.sublist hsub hcand
  · exact (greedyLevels_chain _).take 5

/-- C7: each of the support and resistance lists contains at most 5 prices,
is strictly ascending, and every retained level exceeds the previously kept
one by more than a factor of 1.005 (the 0.5% spacing filter). -/
theorem C7_level_filter_props (bars : List Bar) :
    ((findSupportLevels bars).length ≤ 5 ∧
     (findSupportLevels bars).Pairwise (· < ·) ∧
     List.Chain' (fun a b => a * 1.005 < b) (findSupportLevels bars)) ∧
    ((findResistanceLevels bars).length ≤ 5 ∧
     (findResistanceLevels bars).Pairwise (· < ·) ∧
     List.Chain' (fun a b => a * 1.005 < b) (findResistanceLevels bars)) := by
  constructor
  · simpa only [findSupportLevels] using
      levelPipeline_props ((lastN (min 100 bars.length) bars).map (·.low))
  · simpa only [findResistanceLevels] using
      levelPipeline_props ((lastN (min 100 bars.length) bars).map (·.high))

/-! ### C8: BUY entry pricing -/

/-- C8 counterexample: a non-empty support list whose only level lies above
the current price makes `_calculate_buy_points` raise `ValueError` on
`max([])` and return `{}` — no entry is produced, contradicting the claim
that the entry would default to `current_price * 0.998`. -/
theorem C8_counterexample :
    calcBuyPoints 100 [101] [] 0 = none ∧
    calcEntryExitPoints
      (calcAllIndicators
        (IndicatorLib.mk (fun _ _ => []) (fun _ => []) (fun _ => []) (fun _ => [])
          (fun _ => []) (fun _ => []) (fun _ => []) (fun _ => []) (fun _ => [])
          (fun _ => []) (fun _ => []) (fun _ => []) (fun _ => []) (fun _ => [])
          (fun _ => []) (fun _ => []) (fun _ => []) (fun _ => []) (fun _ => [])
          (fun _ => []) (fun _ => []) (fun _ _ => []) (fun _ => []) (fun _ => [])
          (fun _ => []) (fun _ => []) (fun _ => []) (fun _ => []) (fun _ => none))
        (InputBars.mk [Bar.mk 100 100 100 100 0] false "idx" (TimeInfo.mk "Monday" 0)))
      (Signals.mk "BUY" none none none 70 [] "MEDIUM" none 70)
      (KeyLevels.mk [101] [] none none
        (DynamicLevels.mk none none none none none none none) none none none
        (LevelStrength.mk [] [])) = none := by
  constructor
  · rfl
  · rfl

/-- C8 (amended): when the support list is empty the BUY entry is
`current_price * 0.998`; when some support lies strictly below the current
price the entry is 0.1% above the highest such support; but a non-empty
support list with no level below the current price makes the helper return
`{}` (no bundle) instead of falling back to the 0.2% discount. -/
theorem C8_buy_entry_amended (cp : ℚ) (sup res : List ℚ) (atr : ℚ) :
    (sup ≠ [] → (∀ s ∈ sup, ¬ s < cp) → calcBuyPoints cp sup res atr = none) ∧
    (sup = [] → ∀ b : PointsBundle, calcBuyPoints cp sup res atr = some b →
      b.entry = pyRound 5 (cp * 0.998)) ∧
    (∀ b : PointsBundle, calcBuyPoints cp sup res atr = some b →
      sup.filter (fun s => s < cp) ≠ [] →
      b.entry = pyRound 5 (pyMax (sup.filter (fun s => s < cp)) * 1.001)) := by
  refine ⟨?_, ?_, ?_⟩
  · intro hne hall
    have hfil : sup.filter (fun s => s < cp) = [] := by
      simp only [List.filter_eq_nil_iff]
      intro a ha
      simpa using hall a ha
    simp only [calcBuyPoints, if_pos hne, hfil]
    rfl
  · intro hsup b hb
    subst hsup
    simp only [calcBuyPoints, ne_eq, not_true_eq_false, if_false, reduceIte] at hb
    split at hb
    · exact absurd hb (by simp)
    · rename_i tp1 heq
      rw [Option.some_inj] at hb
      rw [← hb]
  · intro b hb hfil
    have hne : sup ≠ [] := by
      intro h
      subst h
      simp at hfil
    simp only [calcBuyPoints, if_pos hne, if_neg hfil] at hb
    split at hb
    · exact absurd hb (by simp)
    · rename_i tp1 heq
      rw [Option.some_inj] at hb
      rw [← hb]

/-- Witness for C8 (amended) at concrete inputs: support `[101]` above the
price yields no bundle; support `[99, 101]` yields the entry 0.1% above 99. -/
theorem C8_amended_witness :
    calcBuyPoints 100 [101] [] 0 = none ∧
    calcBuyPoints 100 [99, 101] [] 0 =
      some (PointsBundle.mk 99.099 98.505 99.99 100.584) ∧
    (PointsBundle.mk 99.099 98.505 99.99 100.584).entry =
      pyRound 5 (pyMax (([99, 101] : List ℚ).filter (fun s => s < 100)) * 1.001) := by
  have hfil : ([99, 101] : List ℚ).filter (fun s => s < 100) = [99] := by
    norm_num [List.filter]
  have hsome : calcBuyPoints 100 [99, 101] [] 0 =
      some (PointsBundle.mk 99.099 98.505 99.99 100.584) := by
    have hne : ¬(([99, 101] : List ℚ) = []) := by simp
    simp only [calcBuyPoints, hfil, hne]
    norm_num [pyRound, pyRoundInt, pyMax, pyMin, min_def, hne]
  refine ⟨(C8_buy_entry_amended 100 [101] [] 0).1 (by simp) (by norm_num), hsome, ?_⟩
  exact (C8_buy_entry_amended 100 [99, 101] [] 0).2.2
    (PointsBundle.mk 99.099 98.505 99.99 100.584) hsome (by rw [hfil]; simp)

/-! ### C9: doji detection on zero-body bars -/

/-- C9 counterexample: a window whose last three bars all have zero body and
non-zero range produces exactly ONE `DOJI` match (for the last bar only), not
one per bar — the detector never scans the earlier bars for dojis. -/
theorem C9_counterexample :
    detectCandlestickPatterns
      [Bar.mk 100 101 99 100 5, Bar.mk 100 101 99 100 5, Bar.mk 100 101 99 100 5] =
      [dojiMatch] ∧
    ¬ 3 ≤ (detectCandlestickPatterns
      [Bar.mk 100 101 99 100 5, Bar.mk 100 101 99 100 5, Bar.mk 100 101 99 100 5]).length := by
  have h : detectCandlestickPatterns
      [Bar.mk 100 101 99 100 5, Bar.mk 100 101 99 100 5, Bar.mk 100 101 99 100 5] =
      [dojiMatch] := by
    show engulfingPatterns (Bar.mk 100 101 99 100 5) (Bar.mk 100 101 99 100 5) ++
      hammerPatterns (Bar.mk 100 101 99 100 5) ++
      dojiPatterns (Bar.mk 100 101 99 100 5) ++
      starPatterns (Bar.mk 100 101 99 100 5) (Bar.mk 100 101 99 100 5)
        (Bar.mk 100 101 99 100 5) = [dojiMatch]
    norm_num [engulfingPatterns, hammerPatterns, dojiPatterns, starPatterns]
  exact ⟨h, by rw [h]; simp⟩

/-- C9 (amended): when the last three bars of the window each have a zero
body and the last bar has a positive range, the candlestick detector emits
exactly the single `DOJI` match (type `INDECISION`, direction `NEUTRAL`,
strength score 3) for the last bar; no per-bar doji scan takes place. -/
theorem C9_doji_amended (bars : List Bar) (c0 c1 c2 : Bar) (rest : List Bar)
    (hrev : bars.reverse = c0 :: c1 :: c2 :: rest)
    (h0 : c0.openP = c0.close) (h1 : c1.openP = c1.close) (h2 : c2.openP = c2.close)
    (hrange : 0 < c0.high - c0.low) :
    detectCandlestickPatterns bars = [dojiMatch] := by
  have hshape : detectCandlestickPatterns bars =
      engulfingPatterns c1 c0 ++ hammerPatterns c0 ++ dojiPatterns c0 ++
        starPatterns c2 c1 c0 := by
    unfold detectCandlestickPatterns
    rw [hrev]
  have e1 : engulfingPatterns c1 c0 = [] := by
    simp [engulfingPatterns, h1]
  have e2 : hammerPatterns c0 = [] := by
    simp [hammerPatterns, h0]
  have e3 : dojiPatterns c0 = [dojiMatch] := by
    have hb : |c0.close - c0.openP| / (c0.high - c0.low) < 0.1 := by
      rw [h0]
      simp
      norm_num
    simp [dojiPatterns, hrange, hb]
  have e4 : starPatterns c2 c1 c0 = [] := by
    simp [starPatterns, h2]
  rw [hshape, e1, e2, e3, e4]
  simp

/-- Witness for C9 (amended) at a concrete three-bar window of zero-body
bars with range 2. -/
theorem C9_amended_witness :
    detectCandlestickPatterns
      [Bar.mk 100 101 99 100 5, Bar.mk 100 101 99 100 5, Bar.mk 100 101 99 100 5] =
      [dojiMatch] :=
  C9_doji_amended _ (Bar.mk 100 101 99 100 5) (Bar.mk 100 101 99 100 5)
    (Bar.mk 100 101 99 100 5) [] rfl rfl rfl rfl (by norm_num)

/-! ### C5: indicator-engine error handling -/

/-- C5 counterexample: in a frame that lacks the `high` column (so the ADX
statement raises `KeyError`) but has `close`, the RSI — whose own input
`close` is present — is never computed: the single `try` block aborts all
indicators after the failing one, refuting "each indicator is computed
independently".  The EMA columns, computed before the failure, survive. -/
theorem C5_counterexample :
    "close" ∈ (IndEngine.Frame5.mk ["open", "low", "close", "tick_volume"] 150).cols ∧
    "ema_9" ∈ (IndEngine.calcAllIndicators
      (IndEngine.Frame5.mk ["open", "low", "close", "tick_volume"] 150)).cols ∧
    "rsi" ∉ (IndEngine.calcAllIndicators
      (IndEngine.Frame5.mk ["open", "low", "close", "tick_volume"] 150)).cols ∧
    "obv" ∉ (IndEngine.calcAllIndicators
      (IndEngine.Frame5.mk ["open", "low", "close", "tick_volume"] 150)).cols := by
  decide

/-- C5 (amended): `_calculate_all_indicators` never raises to its caller and
a missing volume column only omits the volume-based columns — with the OHLC
columns present and no `tick_volume`, every non-volume indicator column is
produced.  But indicators are not computed independently: a failing statement
(here: `high` absent, so the ADX statement raises) aborts every later
indicator in the same `try` block and the partially augmented frame is
returned. -/
theorem C5_indicator_block_amended :
    (∀ f : IndEngine.Frame5,
      "open" ∈ f.cols → "high" ∈ f.cols → "low" ∈ f.cols → "close" ∈ f.cols →
      "tick_volume" ∉ f.cols → 52 < f.len →
      (IndEngine.calcAllIndicators f).cols = f.cols ++ IndEngine.nonVolumeAdds) ∧
    (∀ f : IndEngine.Frame5, "close" ∈ f.cols → "high" ∉ f.cols →
      (IndEngine.calcAllIndicators f).cols =
        f.cols ++ ["ema_9", "ema_20", "ema_50", "ema_100", "ema_200",
                   "macd", "macd_signal", "macd_diff"]) := by
  constructor
  · intro f hopen hhigh hlow hclose hvol hlen
    simp [IndEngine.calcAllIndicators, IndEngine.steps, IndEngine.runSteps,
      IndEngine.hasCols, IndEngine.addCols, IndEngine.nonVolumeAdds,
      hopen, hhigh, hlow, hclose, hvol, hlen]
  · intro f hclose hhigh
    simp [IndEngine.calcAllIndicators, IndEngine.steps, IndEngine.runSteps,
      IndEngine.hasCols, IndEngine.addCols, hclose, hhigh]

/-- Witness for C5 (amended) at two concrete frames. -/
theorem C5_amended_witness :
    (IndEngine.calcAllIndicators
      (IndEngine.Frame5.mk ["open", "high", "low", "close"] 150)).cols =
      ["open", "high", "low", "close"] ++ IndEngine.nonVolumeAdds ∧
    (IndEngine.calcAllIndicators (IndEngine.Frame5.mk ["open", "low", "close"] 150)).cols =
      ["open", "low", "close"] ++ ["ema_9", "ema_20", "ema_50", "ema_100", "ema_200",
        "macd", "macd_signal", "macd_diff"] :=
  ⟨C5_indicator_block_amended.1 (IndEngine.Frame5.mk ["open", "high", "low", "close"] 150)
      (by decide) (by decide) (by decide) (by decide) (by decide) (by decide),
   C5_indicator_block_amended.2 (IndEngine.Frame5.mk ["open", "low", "close"] 150)
      (by decide) (by decide)⟩

/-! ### C1, C3, C4: top-level pipeline properties -/

/-- C1: a window that is empty or shorter than 100 bars (`df.empty or
len(df) < 100`, equivalent to `len(df) < 100`) makes `analyze_symbol` return
exactly the `_get_empty_analysis` sentinel: primary signal `HOLD` with
confidence 0, overall score 0, risk level `VERY_HIGH` with risk score 10,
current price 0, an empty pattern list, and recommendation action `WAIT`. -/
theorem C1_insufficient_data (lib : IndicatorLib) (inp : InputBars)
    (symbol timeframe now : String) (h : inp.bars.length < 100) :
    analyzeSymbol lib inp symbol timeframe now = getEmptyAnalysis symbol timeframe now ∧
    (getEmptyAnalysis symbol timeframe now).signals.primary = "HOLD" ∧
    (getEmptyAnalysis symbol timeframe now).signals.confidence = 0 ∧
    (getEmptyAnalysis symbol timeframe now).score = 0 ∧
    (getEmptyAnalysis symbol timeframe now).confidence = 0 ∧
    (getEmptyAnalysis symbol timeframe now).risk.level = "VERY_HIGH" ∧
    (getEmptyAnalysis symbol timeframe now).risk.score = 10 ∧
    (getEmptyAnalysis symbol timeframe now).currentPrice = 0 ∧
    (getEmptyAnalysis symbol timeframe now).patterns.patterns = [] ∧
    (getEmptyAnalysis symbol timeframe now).recommendation.action = "WAIT" := by
  refine ⟨?_, rfl, rfl, rfl, rfl, rfl, rfl, rfl, rfl, rfl⟩
  simp only [analyzeSymbol, if_pos h]

/-- Witness for C1 on the empty window. -/
theorem C1_witness :
    ([] : List Bar).length < 100 ∧
    (analyzeSymbol zeroLib (InputBars.mk [] false "idx" (TimeInfo.mk "Monday" 0))
        "EURUSD" "H1" "t0" = getEmptyAnalysis "EURUSD" "H1" "t0" ∧
      (getEmptyAnalysis "EURUSD" "H1" "t0").signals.primary = "HOLD" ∧
      (getEmptyAnalysis "EURUSD" "H1" "t0").signals.confidence = 0 ∧
      (getEmptyAnalysis "EURUSD" "H1" "t0").score = 0 ∧
      (getEmptyAnalysis "EURUSD" "H1" "t0").confidence = 0 ∧
      (getEmptyAnalysis "EURUSD" "H1" "t0").risk.level = "VERY_HIGH" ∧
      (getEmptyAnalysis "EURUSD" "H1" "t0").risk.score = 10 ∧
      (getEmptyAnalysis "EURUSD" "H1" "t0").currentPrice = 0 ∧
      (getEmptyAnalysis "EURUSD" "H1" "t0").patterns.patterns = [] ∧
      (getEmptyAnalysis "EURUSD" "H1" "t0").recommendation.action = "WAIT") :=
  ⟨by norm_num,
   C1_insufficient_data zeroLib (InputBars.mk [] false "idx" (TimeInfo.mk "Monday" 0))
     "EURUSD" "H1" "t0" (by norm_num)⟩

/-- C3: two invocations of `analyze_symbol` on identical windows, symbol,
timeframe and library, and two invocations of `assess_trade_risk` on
identical analyses and configurations (from any manager states), produce
identical results in every field except the generation `timestamp`. -/
theorem C3_determinism_mod_timestamp (lib : IndicatorLib) (inp : InputBars)
    (symbol timeframe t1 t2 : String) (st1 st2 : RiskManagerState)
    (analysis : AnalysisResult) (riskConfig : RiskConfig) (u1 u2 : String) :
    stripTimestampA (analyzeSymbol lib inp symbol timeframe t1) =
      stripTimestampA (analyzeSymbol lib inp symbol timeframe t2) ∧
    stripTimestampR ((assessTradeRisk st1 analysis riskConfig u1).2) =
      stripTimestampR ((assessTradeRisk st2 analysis riskConfig u2).2) := by
  constructor
  · by_cases h : inp.bars.length < 100 <;>
      simp [analyzeSymbol, stripTimestampA, getEmptyAnalysis, h]
  · simp [assessTradeRisk, stripTimestampR]

/-- C4 counterexample: a risk assessment does mutate state that survives the
call — starting from a fresh manager, `assess_trade_risk` leaves
`risk_history` non-empty. -/
theorem C4_counterexample :
    (assessTradeRisk (RiskManagerState.mk [] [] [])
        (getEmptyAnalysis "EURUSD" "H1" "t0") (RiskConfig.mk none none none)
        "t1").1 ≠ RiskManagerState.mk [] [] [] := by
  intro h
  have hlen := congrArg (fun s : RiskManagerState => s.riskHistory.length) h
  simp [assessTradeRisk] at hlen

/-- C4 (amended): `assess_trade_risk` appends its result record to the
manager's `risk_history` and leaves `violations` and `trade_journal`
unchanged; the analyzer holds no mutable state at all, so nothing else
survives the call. -/
theorem C4_state_amended (st : RiskManagerState) (analysis : AnalysisResult)
    (riskConfig : RiskConfig) (now : String) :
    (assessTradeRisk st analysis riskConfig now).1.riskHistory =
      st.riskHistory ++ [(assessTradeRisk st analysis riskConfig now).2] ∧
    (assessTradeRisk st analysis riskConfig now).1.violations = st.violations ∧
    (assessTradeRisk st analysis riskConfig now).1.tradeJournal = st.tradeJournal :=
  ⟨rfl, rfl, rfl⟩

end MA
